import Mathlib

/-!
# Session engine of libssh2 (`src/session.c`): a shallow embedding

The C functions of `src/session.c` are embedded as Lean functions over an
explicit session record.  Conventions of the embedding:

* a byte (`char`, `unsigned char`) is a `Nat`; the characters the code tests
  for are `'\0' = 0`, `'\n' = 10` and `'\r' = 13`;
* a `char *` argument is an `Option (List Nat)`: `none` is `NULL`, `some m` is
  the memory the pointer designates, implicitly followed by a NUL; `strlen`
  is the length of the prefix before the first NUL;
* an owned buffer stored in the session is the list of the bytes of the
  allocation, trailing NUL included;
* collaborators that live outside `session.c` (socket `send`/`recv`, the
  allocator, key exchange, the packet layer) are parameters;
* constants of headers that are not part of the sources (error codes, method
  types, `EAGAIN`) are parameters as well;
* string lengths are taken to fit the C `int`/`unsigned long` they are stored in.
-/

namespace Libssh2

/-! ## Bytes and C strings -/

/-- Bytes of a string literal, one `Nat` per character, without a terminator. -/
def cstr (s : String) : List Nat := s.toList.map Char.toNat

/-- C `strlen`: number of bytes before the first NUL of the designated memory. -/
def strlen (m : List Nat) : Nat := (m.takeWhile (fun c => c != 0)).length

/-- C `memcpy(dst, src, n)` seen from the destination: the first `n` bytes of `src`. -/
def memcpy (src : List Nat) (n : Nat) : List Nat := src.take n

/-! ## Header constants (parameters) -/

/-- Error codes of `libssh2.h` used by `session.c`; the header is not among the
sources, so the values are parameters. -/
structure ErrorCodes where
  SOCKET_NONE : Int
  BANNER_NONE : Int
  BANNER_SEND : Int
  KEX_FAILURE : Int
  ALLOC : Int
  SOCKET_SEND : Int
  SOCKET_DISCONNECT : Int
  PROTO : Int
  METHOD_NONE : Int
  INVAL : Int
deriving DecidableEq, Repr

/-- Method-type selectors (`LIBSSH2_METHOD_*`) of `libssh2.h`, parameters for the
same reason. -/
structure MethodTypes where
  KEX : Int
  HOSTKEY : Int
  CRYPT_CS : Int
  CRYPT_SC : Int
  MAC_CS : Int
  MAC_SC : Int
  COMP_CS : Int
  COMP_SC : Int
  LANG_CS : Int
  LANG_SC : Int
deriving DecidableEq, Repr

/-- The ten case labels of the `switch` in `libssh2_session_methods`, in source order. -/
def MethodTypes.labels (K : MethodTypes) : List Int :=
  [K.KEX, K.HOSTKEY, K.CRYPT_CS, K.CRYPT_SC, K.MAC_CS, K.MAC_SC,
   K.COMP_CS, K.COMP_SC, K.LANG_CS, K.LANG_SC]

/-- A concrete assignment of the error codes (the customary values of the
header), used only to evaluate the embedding at concrete inputs. -/
def sampleErrorCodes : ErrorCodes :=
  { SOCKET_NONE := -1, BANNER_NONE := -2, BANNER_SEND := -3, KEX_FAILURE := -5,
    ALLOC := -6, SOCKET_SEND := -7, SOCKET_DISCONNECT := -13, PROTO := -14,
    METHOD_NONE := -17, INVAL := -34 }

/-- A concrete assignment of the method-type selectors, used only to evaluate
the embedding at concrete inputs. -/
def sampleMethodTypes : MethodTypes :=
  { KEX := 0, HOSTKEY := 1, CRYPT_CS := 2, CRYPT_SC := 3, MAC_CS := 4, MAC_SC := 5,
    COMP_CS := 6, COMP_SC := 7, LANG_CS := 8, LANG_SC := 9 }

/-! ## Data model -/

/-- Key-exchange method record: only the name is read by `session.c`. -/
structure LIBSSH2_KEX_METHOD where
  name : List Nat
deriving DecidableEq, Repr

/-- Host-key method record: name, and whether the `dtor` pointer is non-null. -/
structure LIBSSH2_HOSTKEY_METHOD where
  name : List Nat
  dtor : Bool
deriving DecidableEq, Repr

/-- Cipher method record: name, flag word, and whether `dtor` is non-null. -/
structure LIBSSH2_CRYPT_METHOD where
  name : List Nat
  flags : Nat
  dtor : Bool
deriving DecidableEq, Repr

/-- MAC method record. -/
structure LIBSSH2_MAC_METHOD where
  name : List Nat
  dtor : Bool
deriving DecidableEq, Repr

/-- Compression method record. -/
structure LIBSSH2_COMP_METHOD where
  name : List Nat
  dtor : Bool
deriving DecidableEq, Repr

/-- Per-direction data of a session (`session->local`, `session->remote`).
Opaque abstract pointers are `Option Nat` (`none` is `NULL`). -/
structure libssh2_endpoint_data where
  banner : Option (List Nat) := none
  crypt : Option LIBSSH2_CRYPT_METHOD := none
  crypt_abstract : Option Nat := none
  mac : Option LIBSSH2_MAC_METHOD := none
  mac_abstract : Option Nat := none
  comp : Option LIBSSH2_COMP_METHOD := none
  comp_abstract : Option Nat := none
  crypt_prefs : Option (List Nat) := none
  mac_prefs : Option (List Nat) := none
  comp_prefs : Option (List Nat) := none
  lang_prefs : Option (List Nat) := none
deriving DecidableEq, Repr

/-- The session record (`LIBSSH2_SESSION`), restricted to the fields `session.c`
touches.  Function pointers of the allocator slots are addresses (0 for null);
channels and listeners by an identifier; a pending packet by its payload. -/
structure LIBSSH2_SESSION where
  abstract : Nat := 0
  alloc : Nat := 0
  free : Nat := 0
  realloc : Nat := 0
  socket_fd : Int := 0
  state : Nat := 0
  flags : Int := 0
  kex : Option LIBSSH2_KEX_METHOD := none
  hostkey : Option LIBSSH2_HOSTKEY_METHOD := none
  server_hostkey_abstract : Option Nat := none
  session_id : Option (List Nat) := none
  kex_prefs : Option (List Nat) := none
  hostkey_prefs : Option (List Nat) := none
  local_ : libssh2_endpoint_data := {}
  remote : libssh2_endpoint_data := {}
  channels : List Nat := []
  listeners : List Nat := []
  packets : List (List Nat) := []
  err_msg : Option (List Nat) := none
  err_msglen : Nat := 0
  err_should_free : Int := 0
  err_code : Int := 0
deriving DecidableEq, Repr

/-- How a call of a function of `session.c` can end. -/
inductive Outcome (α : Type) where
  /-- The call returns the value. -/
  | returned (v : α)
  /-- The call accesses memory outside an allocated object (a write through a
  null pointer, a read past the end of a buffer). -/
  | fault
  /-- The call never returns: it waits for socket input that does not arrive. -/
  | blocked
deriving DecidableEq, Repr

/-- Modelled from the spec: the `libssh2_error` macro of `libssh2_priv.h`, which
is not among the sources.  It replaces the pending error of the single error
slot by the given code and message (a previously owned message is released,
which leaves no trace in the record). -/
def libssh2_error (session : LIBSSH2_SESSION) (errcode : Int) (errmsg : List Nat)
    (should_free : Int) : LIBSSH2_SESSION :=
  { session with
    err_msg := some errmsg
    err_msglen := strlen errmsg
    err_should_free := should_free
    err_code := errcode }

/-! ## `libssh2_banner_set` -/

/-- Embedding of `libssh2_banner_set` (session.c 136-161).  `alloc n` tells
whether `LIBSSH2_ALLOC(session, n)` succeeds. -/
def libssh2_banner_set (E : ErrorCodes) (alloc : Nat → Bool) (session : LIBSSH2_SESSION)
    (banner : Option (List Nat)) : Int × LIBSSH2_SESSION :=
  let banner_len : Nat := match banner with
    | some b => strlen b
    | none => 0
  let session :=
    if session.local_.banner.isSome then
      { session with local_ := { session.local_ with banner := none } }
    else session
  if banner_len = 0 then (0, session)
  else if !alloc (banner_len + 3) then
    (-1, libssh2_error session E.ALLOC (cstr "Unable to allocate memory for local banner") 0)
  else
    (0, { session with
          local_ := { session.local_ with
                      banner := some (memcpy (banner.getD []) banner_len ++ [13, 10, 0]) } })

/-! ## `libssh2_banner_receive` -/

/-- One call `recv(session->socket_fd, &c, 1, flags)`: the value returned, the
`errno` it leaves, and the byte written to `c` (only meaningful when `ret > 0`;
`c` is initialised to NUL before each call). -/
structure RecvResult where
  ret : Int
  errno : Int := 0
  c : Nat := 0
deriving DecidableEq, Repr

/-- A `recv` that delivers the byte `c`. -/
def RecvResult.deliver (c : Nat) : RecvResult := { ret := 1, errno := 0, c := c }

/-- A `recv` on a non-blocking socket without data: it returns -1 and sets
`errno` to `EAGAIN`. -/
def RecvResult.wouldBlock (eagain : Int) : RecvResult := { ret := -1, errno := eagain, c := 0 }

/-- Guard of the read loop of `libssh2_banner_receive` (session.c 79-80); the
list is `banner[0 .. banner_len)`. -/
def banner_receive_guard (banner : List Nat) : Prop :=
  banner.length < 256 ∧ (banner.length = 0 ∨ banner.getLast? ≠ some 10)

instance (banner : List Nat) : Decidable (banner_receive_guard banner) := by
  unfold banner_receive_guard
  infer_instance

/-- Tail of `libssh2_banner_receive` after the read loop (session.c 101-111):
strip trailing CR/LF, reject an empty banner, store a NUL-terminated copy.  When
the allocation fails the code copies through the null pointer. -/
def banner_receive_store (alloc : Nat → Bool) (session : LIBSSH2_SESSION)
    (banner : List Nat) : Outcome (Int × LIBSSH2_SESSION) :=
  let banner := banner.rdropWhile (fun c => c == 10 || c == 13)
  if banner.length = 0 then .returned (1, session)
  else if !alloc (banner.length + 1) then .fault
  else .returned (0, { session with
                       remote := { session.remote with banner := some (banner ++ [0]) } })

/-- Read loop of `libssh2_banner_receive` (session.c 79-99) followed by its
tail.  The first argument lists the results of the successive `recv` calls;
when it is exhausted while the loop still wants input the call blocks. -/
def banner_receive_loop (eagain : Int) (alloc : Nat → Bool) (session : LIBSSH2_SESSION) :
    List RecvResult → List Nat → Outcome (Int × LIBSSH2_SESSION)
  | [], banner =>
    if banner_receive_guard banner then .blocked
    else banner_receive_store alloc session banner
  | r :: rest, banner =>
    if banner_receive_guard banner then
      if r.ret < 0 ∧ r.ret ≠ eagain then .returned (1, session)
      else if r.ret ≤ 0 then banner_receive_loop eagain alloc session rest banner
      else if r.c = 0 then .returned (1, session)
      else banner_receive_loop eagain alloc session rest (banner ++ [r.c])
    else banner_receive_store alloc session banner

/-- Embedding of `libssh2_banner_receive` (session.c 74-112). -/
def libssh2_banner_receive (eagain : Int) (alloc : Nat → Bool) (session : LIBSSH2_SESSION)
    (recvs : List RecvResult) : Outcome (Int × LIBSSH2_SESSION) :=
  banner_receive_loop eagain alloc session recvs []

/-! ## Wire helpers and message types -/

/-- Modelled from the spec: `libssh2_htonu32` of misc.c, which is not among the
sources.  It stores the low 32 bits of a value as the 4 bytes of a wire field,
most significant byte first (network order). -/
def libssh2_htonu32 (value : Nat) : List Nat :=
  [value / 16777216 % 256, value / 65536 % 256, value / 256 % 256, value % 256]

/-- Modelled from the spec: `libssh2_ntohu32` of misc.c, which is not among the
sources.  It reads the 4-byte wire field at the start of `buf`, most significant
byte first; the caller guarantees that 4 bytes are there. -/
def libssh2_ntohu32 (buf : List Nat) : Nat :=
  buf.getD 0 0 * 16777216 + buf.getD 1 0 * 65536 + buf.getD 2 0 * 256 + buf.getD 3 0

/-- Modelled from the spec: message type byte of `DISCONNECT` (spec section 6). -/
def SSH_MSG_DISCONNECT : Nat := 1

/-- Modelled from the spec: message type byte of `SERVICE_REQUEST` (spec section 6). -/
def SSH_MSG_SERVICE_REQUEST : Nat := 5

/-- Modelled from the spec: message type byte of `SERVICE_ACCEPT` (spec section 6). -/
def SSH_MSG_SERVICE_ACCEPT : Nat := 6

/-- Conversion of an `int` argument to the `unsigned long` parameter of
`libssh2_htonu32`, kept to the 32 bits that function stores. -/
def intToUnsigned (v : Int) : Nat := (v % 4294967296).toNat

/-- A call made to a collaborator, in the order of execution. -/
inductive Call where
  /-- Call of `LIBSSH2_ALLOC(session, size)`. -/
  | alloc (size : Nat)
  /-- Call of `LIBSSH2_FREE(session, buf)` on a buffer with the given content. -/
  | free (buf : List Nat)
  /-- Call of `libssh2_packet_write(session, data, data_len)`. -/
  | packet_write (data : List Nat)
deriving DecidableEq, Repr

/-! ## `libssh2_session_disconnect_ex` -/

/-- Embedding of `libssh2_session_disconnect_ex` (session.c 442-481).  The scratch
buffer is the sequence of the stores made through `s`, which fill it from the
first byte to the last.  The result carries the calls made to the allocator and
to the packet writer. -/
def libssh2_session_disconnect_ex (E : ErrorCodes) (alloc : Nat → Bool)
    (packet_write : LIBSSH2_SESSION → List Nat → Int × LIBSSH2_SESSION)
    (session : LIBSSH2_SESSION) (reason : Int) (description lang : Option (List Nat)) :
    Int × LIBSSH2_SESSION × List Call :=
  let descr_len : Nat := match description with
    | some d => strlen d
    | none => 0
  let lang_len : Nat := match lang with
    | some l => strlen l
    | none => 0
  let data_len := descr_len + lang_len + 13
  if !alloc data_len then
    (-1, libssh2_error session E.ALLOC
          (cstr "Unable to allocate memory for disconnect packet") 0,
      [Call.alloc data_len])
  else
    let data :=
      [SSH_MSG_DISCONNECT] ++ libssh2_htonu32 (intToUnsigned reason)
        ++ libssh2_htonu32 descr_len
        ++ (match description with
            | some d => memcpy d descr_len
            | none => [])
        ++ libssh2_htonu32 lang_len
        ++ (match lang with
            | some l => memcpy l lang_len
            | none => [])
    let session := (packet_write session data).2
    (0, session, [Call.alloc data_len, Call.packet_write data, Call.free data])

/-! ## `libssh2_banner_send` and `libssh2_session_startup` -/

/-- Embedding of `libssh2_banner_send` (session.c 118-130).  `default_banner` is
`LIBSSH2_SSH_DEFAULT_BANNER_WITH_CRLF` without its NUL; `send fd buf` is the
value returned by the socket `send` for the bytes `buf`. -/
def libssh2_banner_send (default_banner : List Nat) (send : Int → List Nat → Int)
    (session : LIBSSH2_SESSION) : Int :=
  let banner : List Nat := match session.local_.banner with
    | some b => memcpy b (strlen b)
    | none => default_banner
  if send session.socket_fd banner = (banner.length : Int) then 0 else 1

/-- C `strncmp(s1, s2, n)` where `s1` is a string literal (its bytes, followed by
a NUL) and `s2` is a buffer of which exactly the listed bytes are allocated: the
bytes are compared in order and reading past the end of `s2` is a fault. -/
def strncmp : List Nat → List Nat → Nat → Outcome Int
  | _, _, 0 => .returned 0
  | _, [], _ + 1 => .fault
  | s1, c2 :: t2, n + 1 =>
    let c1 := s1.headD 0
    if c1 ≠ c2 then .returned ((c1 : Int) - (c2 : Int))
    else if c1 = 0 then .returned 0
    else strncmp s1.tail t2 n

/-- Validation of the `SERVICE_ACCEPT` payload at the end of
`libssh2_session_startup` (session.c 286-296).  `data` lists the `data_len`
bytes of the payload; the code does not consult `data_len`. -/
def startup_service_accept (E : ErrorCodes) (session : LIBSSH2_SESSION) (data : List Nat) :
    Outcome (Int × LIBSSH2_SESSION) :=
  if data.length < 5 then .fault
  else
    let service_length := libssh2_ntohu32 (data.drop 1)
    if service_length ≠ (cstr "ssh-userauth").length then
      .returned (E.PROTO, libssh2_error session E.PROTO
        (cstr "Invalid response received from server") 0)
    else
      match strncmp (cstr "ssh-userauth") (data.drop 5) service_length with
      | .returned r =>
        if r ≠ 0 then
          .returned (E.PROTO, libssh2_error session E.PROTO
            (cstr "Invalid response received from server") 0)
        else .returned (0, session)
      | .fault => .fault
      | .blocked => .blocked

/-- Collaborators of `libssh2_session_startup`: the socket, the allocator, the
key exchange and the packet layer.  A collaborator that receives the session
returns it, possibly modified, next to its result. -/
structure StartupEnv where
  eagain : Int
  default_banner : List Nat
  alloc : Nat → Bool
  send : Int → List Nat → Int
  recvs : List RecvResult
  kex_exchange : LIBSSH2_SESSION → Int → Int × LIBSSH2_SESSION
  packet_write : LIBSSH2_SESSION → List Nat → Int × LIBSSH2_SESSION
  packet_require : LIBSSH2_SESSION → Nat → Int × LIBSSH2_SESSION × List Nat

/-- Embedding of `libssh2_session_startup` (session.c 242-297). -/
def libssh2_session_startup (E : ErrorCodes) (env : StartupEnv) (session : LIBSSH2_SESSION)
    (socket : Int) : Outcome (Int × LIBSSH2_SESSION) :=
  if socket ≤ 0 then
    .returned (E.SOCKET_NONE, libssh2_error session E.SOCKET_NONE (cstr "No socket provided") 0)
  else
    let session := { session with socket_fd := socket }
    if libssh2_banner_send env.default_banner env.send session ≠ 0 then
      .returned (E.BANNER_SEND, libssh2_error session E.BANNER_SEND
        (cstr "Error sending banner to remote host") 0)
    else
      match libssh2_banner_receive env.eagain env.alloc session env.recvs with
      | .fault => .fault
      | .blocked => .blocked
      | .returned (rc, session) =>
        if rc ≠ 0 then
          .returned (E.BANNER_NONE, libssh2_error session E.BANNER_NONE
            (cstr "Timeout waiting for banner") 0)
        else
          let kex := env.kex_exchange session 0
          if kex.1 ≠ 0 then
            .returned (E.KEX_FAILURE, libssh2_error kex.2 E.KEX_FAILURE
              (cstr "Unable to exchange encryption keys") 0)
          else
            let service := [SSH_MSG_SERVICE_REQUEST]
              ++ libssh2_htonu32 (cstr "ssh-userauth").length ++ cstr "ssh-userauth"
            let written := env.packet_write kex.2 service
            if written.1 ≠ 0 then
              .returned (E.SOCKET_SEND, libssh2_error written.2 E.SOCKET_SEND
                (cstr "Unable to ask for ssh-userauth service") 0)
            else
              let required := env.packet_require written.2 SSH_MSG_SERVICE_ACCEPT
              if required.1 ≠ 0 then .returned (E.SOCKET_DISCONNECT, required.2.1)
              else startup_service_accept E required.2.1 required.2.2

/-- A peer and environment for concrete evaluations: every byte handed to `send`
is sent, the peer answers with the banner line "SSH-2.0-test", allocations and
the key exchange succeed, packets are written, and `libssh2_packet_require`
answers with the given result and payload without touching the session. -/
def sampleEnv (require_rc : Int) (payload : List Nat) : StartupEnv :=
  { eagain := 11
    default_banner := cstr "SSH-2.0-libssh2\r\n"
    alloc := fun _ => true
    send := fun _ buf => buf.length
    recvs := (cstr "SSH-2.0-test\r\n").map RecvResult.deliver
    kex_exchange := fun s _ => (0, s)
    packet_write := fun s _ => (0, s)
    packet_require := fun s _ => (require_rc, s, payload) }

/-! ## `libssh2_session_methods` -/

/-- End of `libssh2_session_methods` (session.c 531-536): `method` is the name
held by the selected method record, or `none` when the slot is null. -/
def session_methods_result (E : ErrorCodes) (session : LIBSSH2_SESSION)
    (method : Option (List Nat)) : Option (List Nat) × LIBSSH2_SESSION :=
  match method with
  | none => (none, libssh2_error session E.METHOD_NONE (cstr "No method negotiated") 0)
  | some name => (some name, session)

/-- Embedding of `libssh2_session_methods` (session.c 489-537).  The `switch` is
a chain of tests in the order of its case labels; the result is the returned
string (`none` for `NULL`) and the session, whose error slot the call may set.
Every method record starts with its name, which is what the cast to
`LIBSSH2_KEX_METHOD *` reads. -/
def libssh2_session_methods (E : ErrorCodes) (K : MethodTypes) (session : LIBSSH2_SESSION)
    (method_type : Int) : Option (List Nat) × LIBSSH2_SESSION :=
  if method_type = K.KEX then
    session_methods_result E session (session.kex.map (fun m => m.name))
  else if method_type = K.HOSTKEY then
    session_methods_result E session (session.hostkey.map (fun m => m.name))
  else if method_type = K.CRYPT_CS then
    session_methods_result E session (session.local_.crypt.map (fun m => m.name))
  else if method_type = K.CRYPT_SC then
    session_methods_result E session (session.remote.crypt.map (fun m => m.name))
  else if method_type = K.MAC_CS then
    session_methods_result E session (session.local_.mac.map (fun m => m.name))
  else if method_type = K.MAC_SC then
    session_methods_result E session (session.remote.mac.map (fun m => m.name))
  else if method_type = K.COMP_CS then
    session_methods_result E session (session.local_.comp.map (fun m => m.name))
  else if method_type = K.COMP_SC then
    session_methods_result E session (session.remote.comp.map (fun m => m.name))
  else if method_type = K.LANG_CS then (some [], session)
  else if method_type = K.LANG_SC then (some [], session)
  else
    (none, libssh2_error session E.INVAL
      (cstr "Invalid parameter specified for method_type") 0)

/-- The method slot a method type designates is unset, in the words of the
specification: key exchange and host key are session-level, cipher, MAC and
compression exist once per direction. -/
def spec_slot_unset (K : MethodTypes) (session : LIBSSH2_SESSION) (method_type : Int) : Prop :=
  (method_type = K.KEX ∧ session.kex = none)
  ∨ (method_type = K.HOSTKEY ∧ session.hostkey = none)
  ∨ (method_type = K.CRYPT_CS ∧ session.local_.crypt = none)
  ∨ (method_type = K.CRYPT_SC ∧ session.remote.crypt = none)
  ∨ (method_type = K.MAC_CS ∧ session.local_.mac = none)
  ∨ (method_type = K.MAC_SC ∧ session.remote.mac = none)
  ∨ (method_type = K.COMP_CS ∧ session.local_.comp = none)
  ∨ (method_type = K.COMP_SC ∧ session.remote.comp = none)

/-- A session after a handshake that negotiated different methods for the two
directions, for concrete evaluations. -/
def sampleNegotiated : LIBSSH2_SESSION :=
  { socket_fd := 3
    kex := some { name := cstr "diffie-hellman-group1-sha1" }
    hostkey := some { name := cstr "ssh-rsa", dtor := true }
    local_ := { crypt := some { name := cstr "aes128-cbc", flags := 1, dtor := false }
                mac := some { name := cstr "hmac-sha1", dtor := true }
                comp := some { name := cstr "none", dtor := false } }
    remote := { crypt := some { name := cstr "3des-cbc", flags := 1, dtor := false }
                mac := some { name := cstr "hmac-md5", dtor := true }
                comp := some { name := cstr "zlib", dtor := true } } }

/-! ## The DISCONNECT layout as the specification words it -/

/-- The 4 bytes of a number below 2^32 in big-endian order: its base-256 digits,
most significant first. -/
def spec_be32 (n : Nat) : List Nat :=
  [n / 256 ^ 3 % 256, n / 256 ^ 2 % 256, n / 256 % 256, n % 256]

/-- The `DISCONNECT` message as the specification lays it out: type byte 1, the
reason code, the length-prefixed description, the length-prefixed language tag. -/
def spec_disconnect_message (r : Nat) (d l : List Nat) : List Nat :=
  [1] ++ spec_be32 r ++ spec_be32 d.length ++ d ++ spec_be32 l.length ++ l

/-! ## `libssh2_session_init_ex` -/

/-- Addresses of the three default allocator functions defined in session.c
(lines 47-67).  A function pointer is its address, 0 being the null pointer. -/
structure DefaultAllocators where
  libssh2_default_alloc : Nat
  libssh2_default_free : Nat
  libssh2_default_realloc : Nat
deriving DecidableEq, Repr

/-- Addresses of the default allocator functions for concrete evaluations. -/
def sampleDefaults : DefaultAllocators :=
  { libssh2_default_alloc := 4096, libssh2_default_free := 4112,
    libssh2_default_realloc := 4128 }

/-- Embedding of `libssh2_session_init_ex` (session.c 170-193).  The allocator
arguments are function addresses (0 for `NULL`); `invoke fn count abstract` tells
whether the allocate function at address `fn`, called with these arguments,
returns a block.  The result lists the calls of an allocate function (address,
count, context) and how the call ends: the `memset` that follows the allocation
is not guarded, so a null block is written through. -/
def libssh2_session_init_ex (D : DefaultAllocators) (sizeof_session : Nat)
    (invoke : Nat → Nat → Nat → Bool) (my_alloc my_free my_realloc abstract : Nat) :
    List (Nat × Nat × Nat) × Outcome LIBSSH2_SESSION :=
  let local_alloc := if my_alloc ≠ 0 then my_alloc else D.libssh2_default_alloc
  let local_free := if my_free ≠ 0 then my_free else D.libssh2_default_free
  let local_realloc := if my_realloc ≠ 0 then my_realloc else D.libssh2_default_realloc
  let calls := [(local_alloc, sizeof_session, abstract)]
  if !invoke local_alloc sizeof_session abstract then (calls, .fault)
  else
    (calls, .returned { alloc := local_alloc, free := local_free, realloc := local_realloc,
                        abstract := abstract })

/-! ## `libssh2_session_last_error` and `libssh2_session_flag` -/

/-- What a message pointer stored in `*errmsg` designates. -/
inductive ErrMsgPtr where
  /-- The null pointer (result of a failed allocation). -/
  | null
  /-- The string literal `""`. -/
  | empty_literal
  /-- The buffer `session->err_msg` itself, with its content. -/
  | session_buffer (msg : List Nat)
  /-- A block obtained from `LIBSSH2_ALLOC`, with the bytes written to it. -/
  | allocated (buf : List Nat)
deriving DecidableEq, Repr

/-- Values `libssh2_session_last_error` leaves behind: the returned code, what it
stored through `errmsg` and `errmsg_len` (`none` when the pointer is null and
nothing is stored), the session, and the allocator calls it made. -/
structure LastError where
  ret : Int
  errmsg : Option ErrMsgPtr
  errmsg_len : Option Nat
  session : LIBSSH2_SESSION
  calls : List Call
deriving DecidableEq, Repr

/-- Embedding of `libssh2_session_last_error` (session.c 554-601).  `errmsg` and
`errmsg_len` tell whether the two output pointers are non-null.  The copy of a
pending message reads `err_msglen` bytes from `session->err_msg`, whose storage
is the message followed by its NUL; reading more than that, or any byte through
a null `err_msg`, is a fault. -/
def libssh2_session_last_error (alloc : Nat → Bool) (session : LIBSSH2_SESSION)
    (errmsg errmsg_len : Bool) (want_buf : Int) : Outcome LastError :=
  if session.err_code = 0 then
    let stored : Option ErrMsgPtr × List Call :=
      if errmsg then
        if want_buf ≠ 0 then
          if alloc 1 then (some (.allocated [0]), [Call.alloc 1])
          else (some .null, [Call.alloc 1])
        else (some .empty_literal, [])
      else (none, [])
    .returned { ret := 0, errmsg := stored.1, errmsg_len := if errmsg_len then some 0 else none,
                session := session, calls := stored.2 }
  else
    let len := if errmsg_len then some session.err_msglen else none
    if errmsg then
      let serrmsg : ErrMsgPtr := match session.err_msg with
        | some m => .session_buffer m
        | none => .empty_literal
      let ownbuf : Int := match session.err_msg with
        | some _ => session.err_should_free
        | none => 0
      if want_buf ≠ 0 then
        if ownbuf ≠ 0 then
          .returned { ret := session.err_code, errmsg := some serrmsg, errmsg_len := len,
                      session := { session with err_should_free := 0 }, calls := [] }
        else if alloc (session.err_msglen + 1) then
          match session.err_msg with
          | some m =>
            if session.err_msglen ≤ m.length + 1 then
              .returned { ret := session.err_code,
                          errmsg := some (.allocated (memcpy (m ++ [0]) session.err_msglen ++ [0])),
                          errmsg_len := len, session := session,
                          calls := [Call.alloc (session.err_msglen + 1)] }
            else .fault
          | none =>
            if session.err_msglen = 0 then
              .returned { ret := session.err_code, errmsg := some (.allocated [0]),
                          errmsg_len := len, session := session,
                          calls := [Call.alloc (session.err_msglen + 1)] }
            else .fault
        else
          .returned { ret := session.err_code, errmsg := some .null, errmsg_len := len,
                      session := session, calls := [Call.alloc (session.err_msglen + 1)] }
      else
        .returned { ret := session.err_code, errmsg := some serrmsg, errmsg_len := len,
                    session := session, calls := [] }
    else
      .returned { ret := session.err_code, errmsg := none, errmsg_len := len,
                  session := session, calls := [] }

/-- Embedding of `libssh2_session_flag` (session.c 608-617).  The operators `|`,
`&` and `~` on the `int` bitmask are the two's-complement ones, which on
integers are `Int.lor`, `Int.land` and `Int.lnot`. -/
def libssh2_session_flag (session : LIBSSH2_SESSION) (flag value : Int) :
    Int × LIBSSH2_SESSION :=
  let session :=
    if value ≠ 0 then { session with flags := Int.lor session.flags flag }
    else { session with flags := Int.land session.flags (Int.lnot flag) }
  (session.flags, session)

/-! ## `libssh2_banner_receive` with its buffer accesses recorded -/

/-- An access `libssh2_banner_receive` makes: a store `banner[index] = c` into
its 256-byte local buffer, or a request `LIBSSH2_ALLOC(session, size)`. -/
inductive BufferEvent where
  /-- Store of the byte `c` at `banner[index]`. -/
  | write (index : Nat) (c : Nat)
  /-- Request of `size` bytes from the session allocator. -/
  | alloc (size : Nat)
deriving DecidableEq, Repr

/-- Tail of `libssh2_banner_receive` (session.c 101-111) as in
`banner_receive_store`, together with the allocation it requests. -/
def banner_receive_store_run (alloc : Nat → Bool) (session : LIBSSH2_SESSION)
    (banner : List Nat) : List BufferEvent × Outcome (Int × LIBSSH2_SESSION) :=
  let banner := banner.rdropWhile (fun c => c == 10 || c == 13)
  if banner.length = 0 then ([], .returned (1, session))
  else if !alloc (banner.length + 1) then ([.alloc (banner.length + 1)], .fault)
  else ([.alloc (banner.length + 1)],
        .returned (0, { session with
                        remote := { session.remote with banner := some (banner ++ [0]) } }))

/-- Read loop of `libssh2_banner_receive` (session.c 79-99) as in
`banner_receive_loop`, together with the stores `banner[banner_len++] = c` it
makes, in order, followed by the accesses of the tail. -/
def banner_receive_run (eagain : Int) (alloc : Nat → Bool) (session : LIBSSH2_SESSION) :
    List RecvResult → List Nat → List BufferEvent × Outcome (Int × LIBSSH2_SESSION)
  | [], banner =>
    if banner_receive_guard banner then ([], .blocked)
    else banner_receive_store_run alloc session banner
  | r :: rest, banner =>
    if banner_receive_guard banner then
      if r.ret < 0 ∧ r.ret ≠ eagain then ([], .returned (1, session))
      else if r.ret ≤ 0 then banner_receive_run eagain alloc session rest banner
      else if r.c = 0 then ([], .returned (1, session))
      else
        (.write banner.length r.c
            :: (banner_receive_run eagain alloc session rest (banner ++ [r.c])).1,
          (banner_receive_run eagain alloc session rest (banner ++ [r.c])).2)
    else banner_receive_store_run alloc session banner

/-- The session after `libssh2_banner_receive` has stored the banner text `b`:
`remote.banner` is `b` followed by a NUL, nothing else changes. -/
def banner_stored (session : LIBSSH2_SESSION) (b : List Nat) : LIBSSH2_SESSION :=
  { session with remote := { session.remote with banner := some (b ++ [0]) } }

/-- What is required of one execution of `libssh2_banner_receive`, given the
accesses it made and the way it ended: every store into the local buffer is at
an index below 256; an allocation is requested only for the length of the
banner to store plus one; and a return value 0 means that a banner was stored
that is non-empty, at most 256 bytes long, free of NUL and LF, not ending in
CR, and for which that allocation was requested. -/
def spec_banner_receive_safe (session : LIBSSH2_SESSION) (events : List BufferEvent)
    (outcome : Outcome (Int × LIBSSH2_SESSION)) : Prop :=
  (∀ i c, BufferEvent.write i c ∈ events → i < 256)
  ∧ (∀ n, BufferEvent.alloc n ∈ events →
      ∃ b, n = b.length + 1
        ∧ (outcome = .fault ∨ outcome = .returned (0, banner_stored session b)))
  ∧ (∀ s', outcome = .returned (0, s') →
      ∃ b, s' = banner_stored session b ∧ b ≠ [] ∧ b.length ≤ 256
        ∧ (∀ c ∈ b, c ≠ 0 ∧ c ≠ 10) ∧ b.getLast? ≠ some 13
        ∧ BufferEvent.alloc (b.length + 1) ∈ events)

/-! ## `libssh2_session_free` -/

/-- Constants of `libssh2_priv.h` read by `libssh2_session_free`; the header is
not among the sources, so the values are parameters. -/
structure FreeConsts where
  STATE_NEWKEYS : Nat
  CRYPT_METHOD_FLAG_EVP : Nat
deriving DecidableEq, Repr

/-- A concrete assignment of these constants, used only to evaluate the
embedding at concrete inputs. -/
def sampleFreeConsts : FreeConsts := { STATE_NEWKEYS := 2, CRYPT_METHOD_FLAG_EVP := 1 }

/-- An object handed to `LIBSSH2_FREE` by `libssh2_session_free`.  The flag
`is_local` tells the direction: `session->local` or `session->remote`. -/
inductive Owned where
  | channel (id : Nat)
  | crypt_abstract (is_local : Bool)
  | session_id
  | banner (is_local : Bool)
  | kex_prefs
  | hostkey_prefs
  | crypt_prefs (is_local : Bool)
  | mac_prefs (is_local : Bool)
  | comp_prefs (is_local : Bool)
  | lang_prefs (is_local : Bool)
  | packet_data (data : List Nat)
  | packet
  | session
deriving DecidableEq, Repr

/-- A call `libssh2_session_free` makes, in the order of execution. -/
inductive FreeEvent where
  /-- Call of `libssh2_channel_free` on the head channel; `detached` tells
  whether the head of the channel list differs afterwards. -/
  | channel_free (id : Nat) (detached : Bool)
  /-- Call of `libssh2_channel_forward_cancel` on the head listener. -/
  | forward_cancel (id : Nat)
  /-- Call of the host-key method's `dtor`. -/
  | hostkey_dtor
  /-- Call of a cipher method's `dtor`. -/
  | crypt_dtor (is_local : Bool)
  /-- Call of a compression method's `dtor`, with its direction argument. -/
  | comp_dtor (compress : Nat)
  /-- Call of a MAC method's `dtor`. -/
  | mac_dtor (is_local : Bool)
  /-- Call of `LIBSSH2_FREE`. -/
  | free (what : Owned)
deriving DecidableEq, Repr

/-- Channel loop of `libssh2_session_free` (session.c 306-322).  `channel_free`
is the effect of `libssh2_channel_free(session->channels.head)` on the session;
the first argument bounds the number of iterations, `none` meaning that the
loop has not ended within the bound. -/
def session_free_channels (channel_free : LIBSSH2_SESSION → LIBSSH2_SESSION) :
    Nat → LIBSSH2_SESSION → Option (LIBSSH2_SESSION × List FreeEvent)
  | 0, session => if session.channels = [] then some (session, []) else none
  | fuel + 1, session =>
    match session.channels with
    | [] => some (session, [])
    | tmp :: _ =>
      let after := channel_free session
      if after.channels.head? = some tmp then
        (session_free_channels channel_free fuel
            { after with channels := after.channels.tail }).map
          (fun r => (r.1, .channel_free tmp false :: .free (.channel tmp) :: r.2))
      else
        (session_free_channels channel_free fuel after).map
          (fun r => (r.1, .channel_free tmp true :: r.2))

/-- Listener loop of `libssh2_session_free` (session.c 324-326), with
`forward_cancel` the effect of `libssh2_channel_forward_cancel` on the session
and the same bound on the iterations. -/
def session_free_listeners (forward_cancel : LIBSSH2_SESSION → LIBSSH2_SESSION) :
    Nat → LIBSSH2_SESSION → Option (LIBSSH2_SESSION × List FreeEvent)
  | 0, session => if session.listeners = [] then some (session, []) else none
  | fuel + 1, session =>
    match session.listeners with
    | [] => some (session, [])
    | l :: _ =>
      (session_free_listeners forward_cancel fuel (forward_cancel session)).map
        (fun r => (r.1, .forward_cancel l :: r.2))

/-- Cipher teardown of one direction (session.c 336-345 and 357-366). -/
def session_free_crypt (Kc : FreeConsts) (is_local : Bool) (d : libssh2_endpoint_data) :
    libssh2_endpoint_data × List FreeEvent :=
  match d.crypt with
  | none => (d, [])
  | some m =>
    if m.flags &&& Kc.CRYPT_METHOD_FLAG_EVP ≠ 0 then
      if d.crypt_abstract.isSome then
        ({ d with crypt_abstract := none }, [.free (.crypt_abstract is_local)])
      else (d, [])
    else if m.dtor then (d, [.crypt_dtor is_local])
    else (d, [])

/-- Compression teardown of one direction (session.c 347-349 and 368-370);
`compress` is the direction argument passed to the destructor. -/
def session_free_comp (compress : Nat) (d : libssh2_endpoint_data) : List FreeEvent :=
  match d.comp with
  | none => []
  | some m => if m.dtor then [.comp_dtor compress] else []

/-- MAC teardown of one direction (session.c 351-353 and 372-374). -/
def session_free_mac (is_local : Bool) (d : libssh2_endpoint_data) : List FreeEvent :=
  match d.mac with
  | none => []
  | some m => if m.dtor then [.mac_dtor is_local] else []

/-- Teardown of the negotiated state in `libssh2_session_free` (session.c
328-380).  Destructors are recorded as calls; what they do with the abstract
state they receive lies outside session.c. -/
def session_free_newkeys (Kc : FreeConsts) (session : LIBSSH2_SESSION) :
    LIBSSH2_SESSION × List FreeEvent :=
  if session.state &&& Kc.STATE_NEWKEYS ≠ 0 then
    let hostkey : List FreeEvent := match session.hostkey with
      | none => []
      | some m => if m.dtor then [.hostkey_dtor] else []
    let lcrypt := session_free_crypt Kc true session.local_
    let rcrypt := session_free_crypt Kc false session.remote
    ({ session with local_ := lcrypt.1, remote := rcrypt.1 },
      hostkey
        ++ lcrypt.2 ++ session_free_comp 1 session.local_ ++ session_free_mac true session.local_
        ++ rcrypt.2 ++ session_free_comp 0 session.remote ++ session_free_mac false session.remote
        ++ (if session.session_id.isSome then [.free .session_id] else []))
  else (session, [])

/-- The `LIBSSH2_FREE` of a field that is set (each free of session.c 382-422 is
guarded by a null test). -/
def free_if_set (field : Option (List Nat)) (what : Owned) : List FreeEvent :=
  if field.isSome then [.free what] else []

/-- Release of banners and preference strings in `libssh2_session_free`
(session.c 382-422). -/
def session_free_strings (session : LIBSSH2_SESSION) : List FreeEvent :=
  free_if_set session.remote.banner (.banner false)
    ++ free_if_set session.local_.banner (.banner true)
    ++ free_if_set session.kex_prefs .kex_prefs
    ++ free_if_set session.hostkey_prefs .hostkey_prefs
    ++ free_if_set session.local_.crypt_prefs (.crypt_prefs true)
    ++ free_if_set session.local_.mac_prefs (.mac_prefs true)
    ++ free_if_set session.local_.comp_prefs (.comp_prefs true)
    ++ free_if_set session.local_.lang_prefs (.lang_prefs true)
    ++ free_if_set session.remote.crypt_prefs (.crypt_prefs false)
    ++ free_if_set session.remote.mac_prefs (.mac_prefs false)
    ++ free_if_set session.remote.comp_prefs (.comp_prefs false)
    ++ free_if_set session.remote.lang_prefs (.lang_prefs false)

/-- Packet loop of `libssh2_session_free` (session.c 425-434): every pending
packet is unlinked, its payload and its node are freed. -/
def session_free_packets : List (List Nat) → List FreeEvent
  | [] => []
  | data :: rest => .free (.packet_data data) :: .free .packet :: session_free_packets rest

/-- Embedding of `libssh2_session_free` (session.c 304-437).  The result is the
session as it stands when the struct itself is released, and the calls made;
`none` means that a loop has not ended within `fuel` iterations. -/
def libssh2_session_free (Kc : FreeConsts)
    (channel_free forward_cancel : LIBSSH2_SESSION → LIBSSH2_SESSION)
    (fuel : Nat) (session : LIBSSH2_SESSION) : Option (LIBSSH2_SESSION × List FreeEvent) :=
  match session_free_channels channel_free fuel session with
  | none => none
  | some (s1, t1) =>
    match session_free_listeners forward_cancel fuel s1 with
    | none => none
    | some (s2, t2) =>
      let newkeys := session_free_newkeys Kc s2
      some ({ newkeys.1 with packets := [] },
        t1 ++ t2 ++ newkeys.2 ++ session_free_strings newkeys.1
          ++ session_free_packets newkeys.1.packets ++ [.free .session])

/-- A well-behaved `libssh2_channel_free` for concrete evaluations: it detaches
the head channel unless its identifier is odd, in which case it leaves the list
as it is. -/
def sampleChannelFree (session : LIBSSH2_SESSION) : LIBSSH2_SESSION :=
  match session.channels with
  | [] => session
  | c :: rest => if c % 2 = 1 then session else { session with channels := rest }

/-- A `libssh2_channel_forward_cancel` that succeeds: it unlinks the head listener. -/
def sampleForwardCancel (session : LIBSSH2_SESSION) : LIBSSH2_SESSION :=
  { session with listeners := session.listeners.tail }

/-- The calls the channel loop is expected to make for the channels `cs`, given
for each of them whether `libssh2_channel_free` detached it: one call of
`libssh2_channel_free` per channel, in list order, followed by the engine's own
`LIBSSH2_FREE` of the channel exactly when the call did not detach it. -/
def spec_channel_trace : List Nat → List Bool → List FreeEvent
  | c :: cs, d :: ds =>
    .channel_free c d :: ((if d then [] else [.free (.channel c)]) ++ spec_channel_trace cs ds)
  | _, _ => []

theorem strlen_of_nul_free (b : List Nat) (h : ∀ c ∈ b, c ≠ 0) : strlen b = b.length := by
  unfold strlen
  rw [List.takeWhile_eq_self_iff.mpr]
  intro c hc
  simpa using h c hc

theorem banner_receive_loop_exit (eagain : Int) (alloc : Nat → Bool) (session : LIBSSH2_SESSION)
    (recvs : List RecvResult) (banner : List Nat) (h : ¬ banner_receive_guard banner) :
    banner_receive_loop eagain alloc session recvs banner
      = banner_receive_store alloc session banner := by
  cases recvs <;> simp [banner_receive_loop, h]

theorem banner_receive_guard_of (banner : List Nat) (hlen : banner.length < 256)
    (hnl : ∀ c ∈ banner, c ≠ 10) : banner_receive_guard banner := by
  refine ⟨hlen, Or.inr ?_⟩
  intro h
  exact hnl 10 (List.mem_of_getLast?_eq_some h) rfl

theorem banner_receive_loop_deliver (eagain : Int) (alloc : Nat → Bool)
    (session : LIBSSH2_SESSION) (rest : List RecvResult) :
    ∀ (bs banner : List Nat), (∀ c ∈ bs, c ≠ 0) → (∀ c ∈ banner ++ bs, c ≠ 10) →
      (banner ++ bs).length ≤ 256 →
      banner_receive_loop eagain alloc session (bs.map RecvResult.deliver ++ rest) banner
        = banner_receive_loop eagain alloc session rest (banner ++ bs) := by
  intro bs
  induction bs with
  | nil => intro banner _ _ _; simp
  | cons b bs ih =>
    intro banner hnul hnl hlen
    have hguard : banner_receive_guard banner := by
      apply banner_receive_guard_of
      · simp at hlen; omega
      · intro c hc; exact hnl c (List.mem_append_left _ hc)
    have hb : b ≠ 0 := hnul b (List.mem_cons_self _ _)
    have hstep : banner_receive_loop eagain alloc session
        ((b :: bs).map RecvResult.deliver ++ rest) banner
        = banner_receive_loop eagain alloc session (bs.map RecvResult.deliver ++ rest)
            (banner ++ [b]) := by
      simp [banner_receive_loop, hguard, RecvResult.deliver, hb]
    rw [hstep, ih (banner ++ [b])]
    · simp
    · intro c hc; exact hnul c (List.mem_cons_of_mem _ hc)
    · intro c hc; apply hnl c; simpa using hc
    · simpa using hlen

theorem rdropWhile_crlf_eq (bs : List Nat) (hnl : ∀ c ∈ bs, c ≠ 10) :
    bs.rdropWhile (fun c => c == 10 || c == 13) = bs.rdropWhile (fun c => c == 13) := by
  induction bs using List.reverseRecOn with
  | nil => simp
  | append_singleton bs b ih =>
    have hb : b ≠ 10 := hnl b (by simp)
    have ih2 := ih (fun c hc => hnl c (List.mem_append_left _ hc))
    by_cases h13 : b = 13
    · rw [List.rdropWhile_concat_pos _ _ _ (by simp [h13]),
        List.rdropWhile_concat_pos _ _ _ (by simp [h13]), ih2]
    · rw [List.rdropWhile_concat_neg _ _ _ (by simp [h13, hb]),
        List.rdropWhile_concat_neg _ _ _ (by simp [h13])]

/-- Result of `libssh2_banner_receive` once the 256-byte buffer has been filled
by bytes that are neither NUL nor LF: the line is cut at 256 bytes and accepted
unless nothing remains after stripping. -/
theorem banner_receive_full_buffer (eagain : Int) (alloc : Nat → Bool)
    (session : LIBSSH2_SESSION) (bs : List Nat) (rest : List RecvResult)
    (hlen : bs.length = 256) (hnl : ∀ c ∈ bs, c ≠ 10) (hnul : ∀ c ∈ bs, c ≠ 0) :
    libssh2_banner_receive eagain alloc session (bs.map RecvResult.deliver ++ rest)
      = if (bs.rdropWhile (fun c => c == 13)).length = 0 then .returned (1, session)
        else if !alloc ((bs.rdropWhile (fun c => c == 13)).length + 1) then .fault
        else .returned (0, { session with
               remote := { session.remote with
                           banner := some (bs.rdropWhile (fun c => c == 13) ++ [0]) } }) := by
  unfold libssh2_banner_receive
  rw [banner_receive_loop_deliver eagain alloc session rest bs [] hnul (by simpa using hnl)
    (by simp [hlen])]
  rw [List.nil_append, banner_receive_loop_exit]
  · simp only [banner_receive_store, rdropWhile_crlf_eq bs hnl]
  · intro h
    have := h.1
    omega

/-- C2 (as amended): for every input stream whose first 256 bytes contain no LF
and no NUL, `libssh2_banner_receive` reads exactly those 256 bytes; it returns
failure (1) with the session unchanged only when all of them are CR, and
otherwise cuts the line there: it returns 0 and stores the 256 bytes without
their trailing CRs, NUL-terminated (faulting if the copy cannot be allocated). -/
theorem banner_receive_no_terminator (eagain : Int) (alloc : Nat → Bool)
    (session : LIBSSH2_SESSION) (bs : List Nat) (rest : List RecvResult)
    (hlen : bs.length = 256) (hnl : ∀ c ∈ bs, c ≠ 10) (hnul : ∀ c ∈ bs, c ≠ 0) :
    libssh2_banner_receive eagain alloc session (bs.map RecvResult.deliver ++ rest)
      = if ∀ c ∈ bs, c = 13 then .returned (1, session)
        else if !alloc ((bs.rdropWhile (fun c => c == 13)).length + 1) then .fault
        else .returned (0, { session with
               remote := { session.remote with
                           banner := some (bs.rdropWhile (fun c => c == 13) ++ [0]) } }) := by
  rw [banner_receive_full_buffer eagain alloc session bs rest hlen hnl hnul]
  have hiff : (bs.rdropWhile (fun c => c == 13)).length = 0 ↔ ∀ c ∈ bs, c = 13 := by
    rw [List.length_eq_zero, List.rdropWhile_eq_nil_iff]
    simp
  by_cases h : ∀ c ∈ bs, c = 13
  · rw [if_pos h, if_pos (hiff.mpr h)]
  · rw [if_neg h, if_neg (fun h0 => h (hiff.mp h0))]

/-- Witness of C2 (as amended): 256 bytes 'A'. -/
theorem banner_receive_no_terminator_witness :
    libssh2_banner_receive 11 (fun _ => true) {}
        ((List.replicate 256 65).map RecvResult.deliver ++ [])
      = if ∀ c ∈ List.replicate 256 65, c = 13 then .returned (1, {})
        else if !(fun _ => true)
            (((List.replicate 256 65).rdropWhile (fun c => c == 13)).length + 1) then .fault
        else .returned (0, { ({} : LIBSSH2_SESSION) with
               remote := { ({} : LIBSSH2_SESSION).remote with
                           banner := some ((List.replicate 256 65).rdropWhile
                             (fun c => c == 13) ++ [0]) } }) :=
  banner_receive_no_terminator 11 (fun _ => true) {} (List.replicate 256 65) []
    (List.length_replicate _ _)
    (fun c hc => by rw [List.eq_of_mem_replicate hc]; decide)
    (fun c hc => by rw [List.eq_of_mem_replicate hc]; decide)

/-- C2 (counterexample): a stream of 256 bytes 'A', with no LF and no NUL, makes
`libssh2_banner_receive` return 0 and store all 256 bytes as the remote banner. -/
theorem banner_receive_overlong_accepted :
    libssh2_banner_receive 11 (fun _ => true) {}
        ((List.replicate 256 65).map RecvResult.deliver)
      = .returned (0, { remote := { banner := some (List.replicate 256 65 ++ [0]) } }) := by
  have h := banner_receive_full_buffer 11 (fun _ => true) {} (List.replicate 256 65) []
    (List.length_replicate _ _)
    (fun c hc => by rw [List.eq_of_mem_replicate hc]; decide)
    (fun c hc => by rw [List.eq_of_mem_replicate hc]; decide)
  have hkeep : (List.replicate 256 65).rdropWhile (fun c => c == 13) = List.replicate 256 65 := by
    rw [List.rdropWhile_eq_self_iff]
    intro hl
    have hmem := List.getLast_mem hl
    rw [List.eq_of_mem_replicate hmem]
    decide
  rw [hkeep, List.append_nil] at h
  rw [h]
  simp only [List.length_replicate]
  rfl

/-- C3: a stream that delivers `b1..bn` and then LF, with `n + 1 ≤ 256`, no `bi`
NUL or LF and not every `bi` CR, makes `libssh2_banner_receive` return 0 and
store `b1..bn` without its trailing CRs, followed by NUL (the allocation of the
copy succeeding). -/
theorem banner_receive_line (eagain : Int) (alloc : Nat → Bool)
    (session : LIBSSH2_SESSION) (bs : List Nat) (rest : List RecvResult)
    (hlen : bs.length + 1 ≤ 256) (hnul : ∀ c ∈ bs, c ≠ 0) (hnl : ∀ c ∈ bs, c ≠ 10)
    (hcr : ∃ c ∈ bs, c ≠ 13)
    (halloc : alloc ((bs.rdropWhile (fun c => c == 13)).length + 1) = true) :
    libssh2_banner_receive eagain alloc session
        ((bs ++ [10]).map RecvResult.deliver ++ rest)
      = .returned (0, { session with
          remote := { session.remote with
                      banner := some (bs.rdropWhile (fun c => c == 13) ++ [0]) } }) := by
  unfold libssh2_banner_receive
  have hguard : banner_receive_guard bs :=
    banner_receive_guard_of bs (by omega) hnl
  have hdone : ¬ banner_receive_guard (bs ++ [10]) := by
    intro h
    rcases h.2 with h0 | h1
    · simp at h0
    · exact h1 (List.getLast?_concat bs)
  rw [List.map_append, List.append_assoc,
    banner_receive_loop_deliver eagain alloc session _ bs [] hnul (by simpa using hnl)
      (by simp; omega)]
  rw [List.nil_append]
  have hstep : banner_receive_loop eagain alloc session
      ([10].map RecvResult.deliver ++ rest) bs
      = banner_receive_loop eagain alloc session rest (bs ++ [10]) := by
    simp [banner_receive_loop, hguard, RecvResult.deliver]
  rw [hstep, banner_receive_loop_exit eagain alloc session rest _ hdone]
  have hstrip : (bs ++ [10]).rdropWhile (fun c => c == 10 || c == 13)
      = bs.rdropWhile (fun c => c == 13) := by
    rw [List.rdropWhile_concat_pos _ _ _ (by simp), rdropWhile_crlf_eq bs hnl]
  have hne : (bs.rdropWhile (fun c => c == 13)).length ≠ 0 := by
    rw [Ne, List.length_eq_zero, List.rdropWhile_eq_nil_iff]
    intro hall
    obtain ⟨c, hc, hc13⟩ := hcr
    exact hc13 (by simpa using hall c hc)
  simp only [banner_receive_store, hstrip, hne, halloc, if_false, Bool.not_true,
    Bool.false_eq_true]

/-- Witness of C3: the stream "SSH-2.0-test\r\n" stores "SSH-2.0-test". -/
theorem banner_receive_line_witness :
    libssh2_banner_receive 11 (fun _ => true) {}
        ((cstr "SSH-2.0-test\r" ++ [10]).map RecvResult.deliver ++ [])
      = .returned (0, { ({} : LIBSSH2_SESSION) with
          remote := { ({} : LIBSSH2_SESSION).remote with
                      banner := some ((cstr "SSH-2.0-test\r").rdropWhile (fun c => c == 13)
                        ++ [0]) } }) :=
  banner_receive_line 11 (fun _ => true) {} (cstr "SSH-2.0-test\r") []
    (by decide) (by decide) (by decide) (by decide) rfl

/-- C4 (the code at the failing input): a first `recv` that reports "would
block" (returns -1, `errno = EAGAIN`) makes `libssh2_banner_receive` return 1
although the bytes delivered afterwards form a valid banner line, one that is
accepted when the would-block read is absent. -/
theorem banner_receive_would_block_fails :
    libssh2_banner_receive 11 (fun _ => true) {}
        (RecvResult.wouldBlock 11 :: (cstr "SSH-2.0-test\r\n").map RecvResult.deliver)
      = .returned (1, {})
    ∧ libssh2_banner_receive 11 (fun _ => true) {}
        ((cstr "SSH-2.0-test\r\n").map RecvResult.deliver)
      = .returned (0, { remote := { banner := some (cstr "SSH-2.0-test" ++ [0]) } }) := by
  decide

/-- With a positive `EAGAIN`, every negative value returned by `recv` ends
`libssh2_banner_receive` with failure, whatever `errno` says and whatever the
bytes read so far (fewer than 256, none NUL or LF) and the reads that follow. -/
theorem banner_receive_negative_fails (eagain : Int) (alloc : Nat → Bool)
    (session : LIBSSH2_SESSION) (bs : List Nat) (r : RecvResult) (rest : List RecvResult)
    (heagain : 0 < eagain) (hret : r.ret < 0)
    (hlen : bs.length < 256) (hnul : ∀ c ∈ bs, c ≠ 0) (hnl : ∀ c ∈ bs, c ≠ 10) :
    libssh2_banner_receive eagain alloc session (bs.map RecvResult.deliver ++ r :: rest)
      = .returned (1, session) := by
  unfold libssh2_banner_receive
  have hguard : banner_receive_guard bs := banner_receive_guard_of bs hlen hnl
  have hne : r.ret ≠ eagain := by omega
  rw [banner_receive_loop_deliver eagain alloc session _ bs [] hnul (by simpa using hnl)
    (by simp; omega)]
  simp [banner_receive_loop, hguard, hret, hne]

/-- C5: a stream in which a NUL is delivered before any LF and within the first
256 bytes makes `libssh2_banner_receive` return 1 with the session unchanged, so
that an unset `remote.banner` stays unset. -/
theorem banner_receive_nul_rejected (eagain : Int) (alloc : Nat → Bool)
    (session : LIBSSH2_SESSION) (bs : List Nat) (rest : List RecvResult)
    (hlen : bs.length < 256) (hnul : ∀ c ∈ bs, c ≠ 0) (hnl : ∀ c ∈ bs, c ≠ 10) :
    libssh2_banner_receive eagain alloc session
        (bs.map RecvResult.deliver ++ RecvResult.deliver 0 :: rest)
      = .returned (1, session) := by
  unfold libssh2_banner_receive
  have hguard : banner_receive_guard bs := banner_receive_guard_of bs hlen hnl
  rw [banner_receive_loop_deliver eagain alloc session _ bs [] hnul (by simpa using hnl)
    (by simp; omega)]
  simp [banner_receive_loop, hguard, RecvResult.deliver]

/-- Witness of C5: "SSH" then NUL. -/
theorem banner_receive_nul_rejected_witness :
    libssh2_banner_receive 11 (fun _ => true) {}
        ((cstr "SSH").map RecvResult.deliver ++ RecvResult.deliver 0 :: [])
      = .returned (1, {}) :=
  banner_receive_nul_rejected 11 (fun _ => true) {} (cstr "SSH") []
    (by decide) (by decide) (by decide)

/-! ### `libssh2_session_disconnect_ex` -/

theorem spec_disconnect_message_length (r : Nat) (d l : List Nat) :
    (spec_disconnect_message r d l).length = 13 + d.length + l.length := by
  simp [spec_disconnect_message, spec_be32]
  omega

/-- C6: for every reason code (taken modulo 2^32) and every NUL-free description
and language tag, an absent one counting as empty, when the scratch buffer is
allocated `libssh2_session_disconnect_ex` hands the packet writer exactly the
message laid out by the specification, of `13 + |d| + |l|` bytes. -/
theorem disconnect_packet_layout (E : ErrorCodes) (alloc : Nat → Bool)
    (packet_write : LIBSSH2_SESSION → List Nat → Int × LIBSSH2_SESSION)
    (session : LIBSSH2_SESSION) (reason : Int) (description lang : Option (List Nat))
    (hd : ∀ c ∈ description.getD [], c ≠ 0) (hl : ∀ c ∈ lang.getD [], c ≠ 0)
    (halloc : alloc ((description.getD []).length + (lang.getD []).length + 13) = true) :
    (libssh2_session_disconnect_ex E alloc packet_write session reason description lang).2.2
        = [Call.alloc (13 + (description.getD []).length + (lang.getD []).length),
           Call.packet_write (spec_disconnect_message (reason % 4294967296).toNat
             (description.getD []) (lang.getD [])),
           Call.free (spec_disconnect_message (reason % 4294967296).toNat
             (description.getD []) (lang.getD []))]
      ∧ (spec_disconnect_message (reason % 4294967296).toNat
          (description.getD []) (lang.getD [])).length
        = 13 + (description.getD []).length + (lang.getD []).length := by
  refine ⟨?_, spec_disconnect_message_length _ _ _⟩
  have hsize : 13 + (description.getD []).length + (lang.getD []).length
      = (description.getD []).length + (lang.getD []).length + 13 := by omega
  rw [hsize]
  cases description with
  | none =>
    cases lang with
    | none =>
      simp only [Option.getD_none, List.length_nil, Nat.zero_add] at halloc ⊢
      simp [libssh2_session_disconnect_ex, halloc, spec_disconnect_message, spec_be32,
        libssh2_htonu32, SSH_MSG_DISCONNECT, intToUnsigned]
    | some l =>
      simp only [Option.getD_none, Option.getD_some, List.length_nil, Nat.zero_add] at halloc hl ⊢
      simp [libssh2_session_disconnect_ex, strlen_of_nul_free l hl, halloc,
        spec_disconnect_message, spec_be32, libssh2_htonu32, SSH_MSG_DISCONNECT,
        intToUnsigned, memcpy]
  | some d =>
    cases lang with
    | none =>
      simp only [Option.getD_none, Option.getD_some, List.length_nil, Nat.add_zero] at halloc hd ⊢
      simp [libssh2_session_disconnect_ex, strlen_of_nul_free d hd, halloc,
        spec_disconnect_message, spec_be32, libssh2_htonu32, SSH_MSG_DISCONNECT,
        intToUnsigned, memcpy]
    | some l =>
      simp only [Option.getD_some] at halloc hd hl ⊢
      simp [libssh2_session_disconnect_ex, strlen_of_nul_free d hd,
        strlen_of_nul_free l hl, halloc, spec_disconnect_message, spec_be32,
        libssh2_htonu32, SSH_MSG_DISCONNECT, intToUnsigned, memcpy]

/-- Witness of C6: reason 11, description "bye", language "" give 16 bytes. -/
theorem disconnect_packet_layout_witness :
    (libssh2_session_disconnect_ex sampleErrorCodes (fun _ => true) (fun s _ => (0, s)) {} 11
        (some (cstr "bye")) (some [])).2.2
        = [Call.alloc (13 + 3 + 0),
           Call.packet_write [1, 0, 0, 0, 11, 0, 0, 0, 3, 98, 121, 101, 0, 0, 0, 0],
           Call.free [1, 0, 0, 0, 11, 0, 0, 0, 3, 98, 121, 101, 0, 0, 0, 0]]
      ∧ ([1, 0, 0, 0, 11, 0, 0, 0, 3, 98, 121, 101, 0, 0, 0, 0] : List Nat).length
        = 13 + 3 + 0 :=
  disconnect_packet_layout sampleErrorCodes (fun _ => true) (fun s _ => (0, s)) {} 11
    (some (cstr "bye")) (some []) (by decide) (by decide) rfl

/-! ### `libssh2_session_startup` -/

/-- C7 (the code at the failing input): when every step up to the service
request succeeds and `libssh2_packet_require` fails without recording an error,
`libssh2_session_startup` returns `LIBSSH2_ERROR_SOCKET_DISCONNECT` and leaves
the error slot empty (code 0, no message); on the sibling path where
`libssh2_packet_write` fails it does record `LIBSSH2_ERROR_SOCKET_SEND`. -/
theorem startup_missing_accept_records_no_error :
    libssh2_session_startup sampleErrorCodes (sampleEnv (-1) []) {} 3
      = .returned (sampleErrorCodes.SOCKET_DISCONNECT,
          { socket_fd := 3, remote := { banner := some (cstr "SSH-2.0-test" ++ [0]) },
            err_code := 0, err_msg := none })
    ∧ libssh2_session_startup sampleErrorCodes
        { sampleEnv 0 [] with packet_write := fun s _ => (-1, s) } {} 3
      = .returned (sampleErrorCodes.SOCKET_SEND,
          { socket_fd := 3, remote := { banner := some (cstr "SSH-2.0-test" ++ [0]) },
            err_code := sampleErrorCodes.SOCKET_SEND,
            err_msg := some (cstr "Unable to ask for ssh-userauth service"),
            err_msglen := 38 }) := by
  decide

/-- C8 (the code at the failing input): a 5-byte `SERVICE_ACCEPT` payload that
announces a 12-byte name and carries none makes `libssh2_session_startup` read
past the end of the payload instead of returning `LIBSSH2_ERROR_PROTO`; the
well-formed 17-byte payload is accepted. -/
theorem startup_short_accept_reads_past_payload :
    libssh2_session_startup sampleErrorCodes (sampleEnv 0 [6, 0, 0, 0, 12]) {} 3 = .fault
    ∧ libssh2_session_startup sampleErrorCodes
        (sampleEnv 0 ([6, 0, 0, 0, 12] ++ cstr "ssh-userauth")) {} 3
      = .returned (0, { socket_fd := 3,
                        remote := { banner := some (cstr "SSH-2.0-test" ++ [0]) } }) := by
  decide

theorem strncmp_in_bounds :
    ∀ (n : Nat) (s1 s2 : List Nat), (∀ c ∈ s1, c ≠ 0) → n ≤ s1.length → n ≤ s2.length →
      ∃ r, strncmp s1 s2 n = .returned r ∧ (r = 0 ↔ s2.take n = s1.take n) := by
  intro n
  induction n with
  | zero => intro s1 s2 _ _ _; exact ⟨0, by simp [strncmp]⟩
  | succ n ih =>
    intro s1 s2 hnul h1 h2
    cases s1 with
    | nil => simp at h1
    | cons c1 t1 =>
      cases s2 with
      | nil => simp at h2
      | cons c2 t2 =>
        have hc1 : c1 ≠ 0 := hnul c1 (List.mem_cons_self _ _)
        by_cases hc : c1 = c2
        · subst hc
          obtain ⟨r, hr, hiff⟩ := ih t1 t2 (fun c hc => hnul c (List.mem_cons_of_mem _ hc))
            (by simpa using h1) (by simpa using h2)
          refine ⟨r, ?_, ?_⟩
          · simp [strncmp, hc1, hr]
          · simp [hiff]
        · refine ⟨(c1 : Int) - (c2 : Int), ?_, ?_⟩
          · simp [strncmp, hc]
          · constructor
            · intro h0
              exact absurd (by omega : c1 = c2) hc
            · intro h0
              simp only [List.take_succ_cons, List.cons.injEq] at h0
              exact absurd h0.1.symm hc

/-- On a payload of at least 17 bytes the validation of `SERVICE_ACCEPT` stays in
bounds and accepts exactly the length 12 followed by the bytes "ssh-userauth". -/
theorem startup_service_accept_in_bounds (E : ErrorCodes) (session : LIBSSH2_SESSION)
    (data : List Nat) (hlen : 17 ≤ data.length) :
    startup_service_accept E session data
      = if libssh2_ntohu32 (data.drop 1) = 12 ∧ (data.drop 5).take 12 = cstr "ssh-userauth"
        then .returned (0, session)
        else .returned (E.PROTO, libssh2_error session E.PROTO
          (cstr "Invalid response received from server") 0) := by
  have h5 : ¬ data.length < 5 := by omega
  have hl : (cstr "ssh-userauth").length = 12 := by decide
  unfold startup_service_accept
  rw [if_neg h5, hl]
  by_cases h12 : libssh2_ntohu32 (data.drop 1) = 12
  · obtain ⟨r, hr, hiff⟩ := strncmp_in_bounds 12 (cstr "ssh-userauth") (data.drop 5)
      (by decide) (by decide) (by simp; omega)
    have htake : (cstr "ssh-userauth").take 12 = cstr "ssh-userauth" := by decide
    rw [htake] at hiff
    simp only [h12, ne_eq, not_true_eq_false, if_false, hr, true_and]
    by_cases h0 : r = 0
    · rw [if_neg (not_not.mpr h0), if_pos (hiff.mp h0)]
    · rw [if_pos h0, if_neg (fun h => h0 (hiff.mpr h))]
  · rw [if_pos h12, if_neg (fun h => h12 h.1)]

/-! ### `libssh2_session_methods` -/

theorem labels_distinct (K : MethodTypes) (hK : K.labels.Nodup) :
    (K.KEX ≠ K.HOSTKEY ∧ K.KEX ≠ K.CRYPT_CS ∧ K.KEX ≠ K.CRYPT_SC ∧ K.KEX ≠ K.MAC_CS
      ∧ K.KEX ≠ K.MAC_SC ∧ K.KEX ≠ K.COMP_CS ∧ K.KEX ≠ K.COMP_SC ∧ K.KEX ≠ K.LANG_CS
      ∧ K.KEX ≠ K.LANG_SC)
    ∧ (K.HOSTKEY ≠ K.CRYPT_CS ∧ K.HOSTKEY ≠ K.CRYPT_SC ∧ K.HOSTKEY ≠ K.MAC_CS
      ∧ K.HOSTKEY ≠ K.MAC_SC ∧ K.HOSTKEY ≠ K.COMP_CS ∧ K.HOSTKEY ≠ K.COMP_SC
      ∧ K.HOSTKEY ≠ K.LANG_CS ∧ K.HOSTKEY ≠ K.LANG_SC)
    ∧ (K.CRYPT_CS ≠ K.CRYPT_SC ∧ K.CRYPT_CS ≠ K.MAC_CS ∧ K.CRYPT_CS ≠ K.MAC_SC
      ∧ K.CRYPT_CS ≠ K.COMP_CS ∧ K.CRYPT_CS ≠ K.COMP_SC ∧ K.CRYPT_CS ≠ K.LANG_CS
      ∧ K.CRYPT_CS ≠ K.LANG_SC)
    ∧ (K.CRYPT_SC ≠ K.MAC_CS ∧ K.CRYPT_SC ≠ K.MAC_SC ∧ K.CRYPT_SC ≠ K.COMP_CS
      ∧ K.CRYPT_SC ≠ K.COMP_SC ∧ K.CRYPT_SC ≠ K.LANG_CS ∧ K.CRYPT_SC ≠ K.LANG_SC)
    ∧ (K.MAC_CS ≠ K.MAC_SC ∧ K.MAC_CS ≠ K.COMP_CS ∧ K.MAC_CS ≠ K.COMP_SC
      ∧ K.MAC_CS ≠ K.LANG_CS ∧ K.MAC_CS ≠ K.LANG_SC)
    ∧ (K.MAC_SC ≠ K.COMP_CS ∧ K.MAC_SC ≠ K.COMP_SC ∧ K.MAC_SC ≠ K.LANG_CS
      ∧ K.MAC_SC ≠ K.LANG_SC)
    ∧ (K.COMP_CS ≠ K.COMP_SC ∧ K.COMP_CS ≠ K.LANG_CS ∧ K.COMP_CS ≠ K.LANG_SC)
    ∧ (K.COMP_SC ≠ K.LANG_CS ∧ K.COMP_SC ≠ K.LANG_SC)
    ∧ K.LANG_CS ≠ K.LANG_SC := by
  unfold MethodTypes.labels at hK
  simpa only [List.nodup_cons, List.mem_cons, List.mem_singleton, List.not_mem_nil, not_or,
    or_false, not_false_eq_true, List.nodup_nil, and_true, ne_eq] using hK

theorem session_methods_at_KEX (E : ErrorCodes) (K : MethodTypes) (session : LIBSSH2_SESSION)
    (hK : K.labels.Nodup) :
    libssh2_session_methods E K session K.KEX
      = session_methods_result E session (session.kex.map (fun m => m.name)) := by
  obtain ⟨⟨h01, h02, h03, h04, h05, h06, h07, h08, h09⟩,
    ⟨h12, h13, h14, h15, h16, h17, h18, h19⟩, ⟨h23, h24, h25, h26, h27, h28, h29⟩,
    ⟨h34, h35, h36, h37, h38, h39⟩, ⟨h45, h46, h47, h48, h49⟩, ⟨h56, h57, h58, h59⟩,
    ⟨h67, h68, h69⟩, ⟨h78, h79⟩, h89⟩ := labels_distinct K hK
  unfold libssh2_session_methods
  rw [if_pos rfl]

theorem session_methods_at_HOSTKEY (E : ErrorCodes) (K : MethodTypes) (session : LIBSSH2_SESSION)
    (hK : K.labels.Nodup) :
    libssh2_session_methods E K session K.HOSTKEY
      = session_methods_result E session (session.hostkey.map (fun m => m.name)) := by
  obtain ⟨⟨h01, h02, h03, h04, h05, h06, h07, h08, h09⟩,
    ⟨h12, h13, h14, h15, h16, h17, h18, h19⟩, ⟨h23, h24, h25, h26, h27, h28, h29⟩,
    ⟨h34, h35, h36, h37, h38, h39⟩, ⟨h45, h46, h47, h48, h49⟩, ⟨h56, h57, h58, h59⟩,
    ⟨h67, h68, h69⟩, ⟨h78, h79⟩, h89⟩ := labels_distinct K hK
  unfold libssh2_session_methods
  rw [if_neg h01.symm, if_pos rfl]

theorem session_methods_at_CRYPT_CS (E : ErrorCodes) (K : MethodTypes) (session : LIBSSH2_SESSION)
    (hK : K.labels.Nodup) :
    libssh2_session_methods E K session K.CRYPT_CS
      = session_methods_result E session (session.local_.crypt.map (fun m => m.name)) := by
  obtain ⟨⟨h01, h02, h03, h04, h05, h06, h07, h08, h09⟩,
    ⟨h12, h13, h14, h15, h16, h17, h18, h19⟩, ⟨h23, h24, h25, h26, h27, h28, h29⟩,
    ⟨h34, h35, h36, h37, h38, h39⟩, ⟨h45, h46, h47, h48, h49⟩, ⟨h56, h57, h58, h59⟩,
    ⟨h67, h68, h69⟩, ⟨h78, h79⟩, h89⟩ := labels_distinct K hK
  unfold libssh2_session_methods
  rw [if_neg h02.symm, if_neg h12.symm, if_pos rfl]

theorem session_methods_at_CRYPT_SC (E : ErrorCodes) (K : MethodTypes) (session : LIBSSH2_SESSION)
    (hK : K.labels.Nodup) :
    libssh2_session_methods E K session K.CRYPT_SC
      = session_methods_result E session (session.remote.crypt.map (fun m => m.name)) := by
  obtain ⟨⟨h01, h02, h03, h04, h05, h06, h07, h08, h09⟩,
    ⟨h12, h13, h14, h15, h16, h17, h18, h19⟩, ⟨h23, h24, h25, h26, h27, h28, h29⟩,
    ⟨h34, h35, h36, h37, h38, h39⟩, ⟨h45, h46, h47, h48, h49⟩, ⟨h56, h57, h58, h59⟩,
    ⟨h67, h68, h69⟩, ⟨h78, h79⟩, h89⟩ := labels_distinct K hK
  unfold libssh2_session_methods
  rw [if_neg h03.symm, if_neg h13.symm, if_neg h23.symm, if_pos rfl]

theorem session_methods_at_MAC_CS (E : ErrorCodes) (K : MethodTypes) (session : LIBSSH2_SESSION)
    (hK : K.labels.Nodup) :
    libssh2_session_methods E K session K.MAC_CS
      = session_methods_result E session (session.local_.mac.map (fun m => m.name)) := by
  obtain ⟨⟨h01, h02, h03, h04, h05, h06, h07, h08, h09⟩,
    ⟨h12, h13, h14, h15, h16, h17, h18, h19⟩, ⟨h23, h24, h25, h26, h27, h28, h29⟩,
    ⟨h34, h35, h36, h37, h38, h39⟩, ⟨h45, h46, h47, h48, h49⟩, ⟨h56, h57, h58, h59⟩,
    ⟨h67, h68, h69⟩, ⟨h78, h79⟩, h89⟩ := labels_distinct K hK
  unfold libssh2_session_methods
  rw [if_neg h04.symm, if_neg h14.symm, if_neg h24.symm, if_neg h34.symm, if_pos rfl]

theorem session_methods_at_MAC_SC (E : ErrorCodes) (K : MethodTypes) (session : LIBSSH2_SESSION)
    (hK : K.labels.Nodup) :
    libssh2_session_methods E K session K.MAC_SC
      = session_methods_result E session (session.remote.mac.map (fun m => m.name)) := by
  obtain ⟨⟨h01, h02, h03, h04, h05, h06, h07, h08, h09⟩,
    ⟨h12, h13, h14, h15, h16, h17, h18, h19⟩, ⟨h23, h24, h25, h26, h27, h28, h29⟩,
    ⟨h34, h35, h36, h37, h38, h39⟩, ⟨h45, h46, h47, h48, h49⟩, ⟨h56, h57, h58, h59⟩,
    ⟨h67, h68, h69⟩, ⟨h78, h79⟩, h89⟩ := labels_distinct K hK
  unfold libssh2_session_methods
  rw [if_neg h05.symm, if_neg h15.symm, if_neg h25.symm, if_neg h35.symm, if_neg h45.symm, if_pos rfl]

theorem session_methods_at_COMP_CS (E : ErrorCodes) (K : MethodTypes) (session : LIBSSH2_SESSION)
    (hK : K.labels.Nodup) :
    libssh2_session_methods E K session K.COMP_CS
      = session_methods_result E session (session.local_.comp.map (fun m => m.name)) := by
  obtain ⟨⟨h01, h02, h03, h04, h05, h06, h07, h08, h09⟩,
    ⟨h12, h13, h14, h15, h16, h17, h18, h19⟩, ⟨h23, h24, h25, h26, h27, h28, h29⟩,
    ⟨h34, h35, h36, h37, h38, h39⟩, ⟨h45, h46, h47, h48, h49⟩, ⟨h56, h57, h58, h59⟩,
    ⟨h67, h68, h69⟩, ⟨h78, h79⟩, h89⟩ := labels_distinct K hK
  unfold libssh2_session_methods
  rw [if_neg h06.symm, if_neg h16.symm, if_neg h26.symm, if_neg h36.symm, if_neg h46.symm, if_neg h56.symm, if_pos rfl]

theorem session_methods_at_COMP_SC (E : ErrorCodes) (K : MethodTypes) (session : LIBSSH2_SESSION)
    (hK : K.labels.Nodup) :
    libssh2_session_methods E K session K.COMP_SC
      = session_methods_result E session (session.remote.comp.map (fun m => m.name)) := by
  obtain ⟨⟨h01, h02, h03, h04, h05, h06, h07, h08, h09⟩,
    ⟨h12, h13, h14, h15, h16, h17, h18, h19⟩, ⟨h23, h24, h25, h26, h27, h28, h29⟩,
    ⟨h34, h35, h36, h37, h38, h39⟩, ⟨h45, h46, h47, h48, h49⟩, ⟨h56, h57, h58, h59⟩,
    ⟨h67, h68, h69⟩, ⟨h78, h79⟩, h89⟩ := labels_distinct K hK
  unfold libssh2_session_methods
  rw [if_neg h07.symm, if_neg h17.symm, if_neg h27.symm, if_neg h37.symm, if_neg h47.symm, if_neg h57.symm, if_neg h67.symm, if_pos rfl]

theorem session_methods_at_LANG_CS (E : ErrorCodes) (K : MethodTypes) (session : LIBSSH2_SESSION)
    (hK : K.labels.Nodup) :
    libssh2_session_methods E K session K.LANG_CS
      = (some [], session) := by
  obtain ⟨⟨h01, h02, h03, h04, h05, h06, h07, h08, h09⟩,
    ⟨h12, h13, h14, h15, h16, h17, h18, h19⟩, ⟨h23, h24, h25, h26, h27, h28, h29⟩,
    ⟨h34, h35, h36, h37, h38, h39⟩, ⟨h45, h46, h47, h48, h49⟩, ⟨h56, h57, h58, h59⟩,
    ⟨h67, h68, h69⟩, ⟨h78, h79⟩, h89⟩ := labels_distinct K hK
  unfold libssh2_session_methods
  rw [if_neg h08.symm, if_neg h18.symm, if_neg h28.symm, if_neg h38.symm, if_neg h48.symm, if_neg h58.symm, if_neg h68.symm, if_neg h78.symm, if_pos rfl]

theorem session_methods_at_LANG_SC (E : ErrorCodes) (K : MethodTypes) (session : LIBSSH2_SESSION)
    (hK : K.labels.Nodup) :
    libssh2_session_methods E K session K.LANG_SC
      = (some [], session) := by
  obtain ⟨⟨h01, h02, h03, h04, h05, h06, h07, h08, h09⟩,
    ⟨h12, h13, h14, h15, h16, h17, h18, h19⟩, ⟨h23, h24, h25, h26, h27, h28, h29⟩,
    ⟨h34, h35, h36, h37, h38, h39⟩, ⟨h45, h46, h47, h48, h49⟩, ⟨h56, h57, h58, h59⟩,
    ⟨h67, h68, h69⟩, ⟨h78, h79⟩, h89⟩ := labels_distinct K hK
  unfold libssh2_session_methods
  rw [if_neg h09.symm, if_neg h19.symm, if_neg h29.symm, if_neg h39.symm, if_neg h49.symm, if_neg h59.symm, if_neg h69.symm, if_neg h79.symm, if_neg h89.symm, if_pos rfl]

theorem session_methods_unrecognized (E : ErrorCodes) (K : MethodTypes)
    (session : LIBSSH2_SESSION) (t : Int) (ht : t ∉ K.labels) :
    libssh2_session_methods E K session t
      = (none, libssh2_error session E.INVAL
          (cstr "Invalid parameter specified for method_type") 0) := by
  unfold MethodTypes.labels at ht
  simp only [List.mem_cons, List.mem_singleton, List.not_mem_nil, not_or, or_false] at ht
  obtain ⟨h0, h1, h2, h3, h4, h5, h6, h7, h8, h9⟩ := ht
  unfold libssh2_session_methods
  rw [if_neg h0, if_neg h1, if_neg h2, if_neg h3, if_neg h4, if_neg h5, if_neg h6, if_neg h7,
    if_neg h8, if_neg h9]

theorem slot_unset_at_KEX (K : MethodTypes) (session : LIBSSH2_SESSION)
    (hK : K.labels.Nodup) :
    spec_slot_unset K session K.KEX ↔ session.kex = none := by
  obtain ⟨⟨h01, h02, h03, h04, h05, h06, h07, h08, h09⟩,
    ⟨h12, h13, h14, h15, h16, h17, h18, h19⟩, ⟨h23, h24, h25, h26, h27, h28, h29⟩,
    ⟨h34, h35, h36, h37, h38, h39⟩, ⟨h45, h46, h47, h48, h49⟩, ⟨h56, h57, h58, h59⟩,
    ⟨h67, h68, h69⟩, ⟨h78, h79⟩, h89⟩ := labels_distinct K hK
  unfold spec_slot_unset
  constructor
  · rintro (h | h | h | h | h | h | h | h)
    · exact h.2
    · exact absurd h.1 h01
    · exact absurd h.1 h02
    · exact absurd h.1 h03
    · exact absurd h.1 h04
    · exact absurd h.1 h05
    · exact absurd h.1 h06
    · exact absurd h.1 h07
  · intro h
    exact Or.inl ⟨rfl, h⟩

theorem slot_unset_at_HOSTKEY (K : MethodTypes) (session : LIBSSH2_SESSION)
    (hK : K.labels.Nodup) :
    spec_slot_unset K session K.HOSTKEY ↔ session.hostkey = none := by
  obtain ⟨⟨h01, h02, h03, h04, h05, h06, h07, h08, h09⟩,
    ⟨h12, h13, h14, h15, h16, h17, h18, h19⟩, ⟨h23, h24, h25, h26, h27, h28, h29⟩,
    ⟨h34, h35, h36, h37, h38, h39⟩, ⟨h45, h46, h47, h48, h49⟩, ⟨h56, h57, h58, h59⟩,
    ⟨h67, h68, h69⟩, ⟨h78, h79⟩, h89⟩ := labels_distinct K hK
  unfold spec_slot_unset
  constructor
  · rintro (h | h | h | h | h | h | h | h)
    · exact absurd h.1.symm h01
    · exact h.2
    · exact absurd h.1 h12
    · exact absurd h.1 h13
    · exact absurd h.1 h14
    · exact absurd h.1 h15
    · exact absurd h.1 h16
    · exact absurd h.1 h17
  · intro h
    exact Or.inr (Or.inl ⟨rfl, h⟩)

theorem slot_unset_at_CRYPT_CS (K : MethodTypes) (session : LIBSSH2_SESSION)
    (hK : K.labels.Nodup) :
    spec_slot_unset K session K.CRYPT_CS ↔ session.local_.crypt = none := by
  obtain ⟨⟨h01, h02, h03, h04, h05, h06, h07, h08, h09⟩,
    ⟨h12, h13, h14, h15, h16, h17, h18, h19⟩, ⟨h23, h24, h25, h26, h27, h28, h29⟩,
    ⟨h34, h35, h36, h37, h38, h39⟩, ⟨h45, h46, h47, h48, h49⟩, ⟨h56, h57, h58, h59⟩,
    ⟨h67, h68, h69⟩, ⟨h78, h79⟩, h89⟩ := labels_distinct K hK
  unfold spec_slot_unset
  constructor
  · rintro (h | h | h | h | h | h | h | h)
    · exact absurd h.1.symm h02
    · exact absurd h.1.symm h12
    · exact h.2
    · exact absurd h.1 h23
    · exact absurd h.1 h24
    · exact absurd h.1 h25
    · exact absurd h.1 h26
    · exact absurd h.1 h27
  · intro h
    exact Or.inr (Or.inr (Or.inl ⟨rfl, h⟩))

theorem slot_unset_at_CRYPT_SC (K : MethodTypes) (session : LIBSSH2_SESSION)
    (hK : K.labels.Nodup) :
    spec_slot_unset K session K.CRYPT_SC ↔ session.remote.crypt = none := by
  obtain ⟨⟨h01, h02, h03, h04, h05, h06, h07, h08, h09⟩,
    ⟨h12, h13, h14, h15, h16, h17, h18, h19⟩, ⟨h23, h24, h25, h26, h27, h28, h29⟩,
    ⟨h34, h35, h36, h37, h38, h39⟩, ⟨h45, h46, h47, h48, h49⟩, ⟨h56, h57, h58, h59⟩,
    ⟨h67, h68, h69⟩, ⟨h78, h79⟩, h89⟩ := labels_distinct K hK
  unfold spec_slot_unset
  constructor
  · rintro (h | h | h | h | h | h | h | h)
    · exact absurd h.1.symm h03
    · exact absurd h.1.symm h13
    · exact absurd h.1.symm h23
    · exact h.2
    · exact absurd h.1 h34
    · exact absurd h.1 h35
    · exact absurd h.1 h36
    · exact absurd h.1 h37
  · intro h
    exact Or.inr (Or.inr (Or.inr (Or.inl ⟨rfl, h⟩)))

theorem slot_unset_at_MAC_CS (K : MethodTypes) (session : LIBSSH2_SESSION)
    (hK : K.labels.Nodup) :
    spec_slot_unset K session K.MAC_CS ↔ session.local_.mac = none := by
  obtain ⟨⟨h01, h02, h03, h04, h05, h06, h07, h08, h09⟩,
    ⟨h12, h13, h14, h15, h16, h17, h18, h19⟩, ⟨h23, h24, h25, h26, h27, h28, h29⟩,
    ⟨h34, h35, h36, h37, h38, h39⟩, ⟨h45, h46, h47, h48, h49⟩, ⟨h56, h57, h58, h59⟩,
    ⟨h67, h68, h69⟩, ⟨h78, h79⟩, h89⟩ := labels_distinct K hK
  unfold spec_slot_unset
  constructor
  · rintro (h | h | h | h | h | h | h | h)
    · exact absurd h.1.symm h04
    · exact absurd h.1.symm h14
    · exact absurd h.1.symm h24
    · exact absurd h.1.symm h34
    · exact h.2
    · exact absurd h.1 h45
    · exact absurd h.1 h46
    · exact absurd h.1 h47
  · intro h
    exact Or.inr (Or.inr (Or.inr (Or.inr (Or.inl ⟨rfl, h⟩))))

theorem slot_unset_at_MAC_SC (K : MethodTypes) (session : LIBSSH2_SESSION)
    (hK : K.labels.Nodup) :
    spec_slot_unset K session K.MAC_SC ↔ session.remote.mac = none := by
  obtain ⟨⟨h01, h02, h03, h04, h05, h06, h07, h08, h09⟩,
    ⟨h12, h13, h14, h15, h16, h17, h18, h19⟩, ⟨h23, h24, h25, h26, h27, h28, h29⟩,
    ⟨h34, h35, h36, h37, h38, h39⟩, ⟨h45, h46, h47, h48, h49⟩, ⟨h56, h57, h58, h59⟩,
    ⟨h67, h68, h69⟩, ⟨h78, h79⟩, h89⟩ := labels_distinct K hK
  unfold spec_slot_unset
  constructor
  · rintro (h | h | h | h | h | h | h | h)
    · exact absurd h.1.symm h05
    · exact absurd h.1.symm h15
    · exact absurd h.1.symm h25
    · exact absurd h.1.symm h35
    · exact absurd h.1.symm h45
    · exact h.2
    · exact absurd h.1 h56
    · exact absurd h.1 h57
  · intro h
    exact Or.inr (Or.inr (Or.inr (Or.inr (Or.inr (Or.inl ⟨rfl, h⟩)))))

theorem slot_unset_at_COMP_CS (K : MethodTypes) (session : LIBSSH2_SESSION)
    (hK : K.labels.Nodup) :
    spec_slot_unset K session K.COMP_CS ↔ session.local_.comp = none := by
  obtain ⟨⟨h01, h02, h03, h04, h05, h06, h07, h08, h09⟩,
    ⟨h12, h13, h14, h15, h16, h17, h18, h19⟩, ⟨h23, h24, h25, h26, h27, h28, h29⟩,
    ⟨h34, h35, h36, h37, h38, h39⟩, ⟨h45, h46, h47, h48, h49⟩, ⟨h56, h57, h58, h59⟩,
    ⟨h67, h68, h69⟩, ⟨h78, h79⟩, h89⟩ := labels_distinct K hK
  unfold spec_slot_unset
  constructor
  · rintro (h | h | h | h | h | h | h | h)
    · exact absurd h.1.symm h06
    · exact absurd h.1.symm h16
    · exact absurd h.1.symm h26
    · exact absurd h.1.symm h36
    · exact absurd h.1.symm h46
    · exact absurd h.1.symm h56
    · exact h.2
    · exact absurd h.1 h67
  · intro h
    exact Or.inr (Or.inr (Or.inr (Or.inr (Or.inr (Or.inr (Or.inl ⟨rfl, h⟩))))))

theorem slot_unset_at_COMP_SC (K : MethodTypes) (session : LIBSSH2_SESSION)
    (hK : K.labels.Nodup) :
    spec_slot_unset K session K.COMP_SC ↔ session.remote.comp = none := by
  obtain ⟨⟨h01, h02, h03, h04, h05, h06, h07, h08, h09⟩,
    ⟨h12, h13, h14, h15, h16, h17, h18, h19⟩, ⟨h23, h24, h25, h26, h27, h28, h29⟩,
    ⟨h34, h35, h36, h37, h38, h39⟩, ⟨h45, h46, h47, h48, h49⟩, ⟨h56, h57, h58, h59⟩,
    ⟨h67, h68, h69⟩, ⟨h78, h79⟩, h89⟩ := labels_distinct K hK
  unfold spec_slot_unset
  constructor
  · rintro (h | h | h | h | h | h | h | h)
    · exact absurd h.1.symm h07
    · exact absurd h.1.symm h17
    · exact absurd h.1.symm h27
    · exact absurd h.1.symm h37
    · exact absurd h.1.symm h47
    · exact absurd h.1.symm h57
    · exact absurd h.1.symm h67
    · exact h.2
  · intro h
    exact Or.inr (Or.inr (Or.inr (Or.inr (Or.inr (Or.inr (Or.inr (⟨rfl, h⟩)))))))

theorem slot_unset_at_LANG_CS (K : MethodTypes) (session : LIBSSH2_SESSION)
    (hK : K.labels.Nodup) :
    ¬ spec_slot_unset K session K.LANG_CS := by
  obtain ⟨⟨h01, h02, h03, h04, h05, h06, h07, h08, h09⟩,
    ⟨h12, h13, h14, h15, h16, h17, h18, h19⟩, ⟨h23, h24, h25, h26, h27, h28, h29⟩,
    ⟨h34, h35, h36, h37, h38, h39⟩, ⟨h45, h46, h47, h48, h49⟩, ⟨h56, h57, h58, h59⟩,
    ⟨h67, h68, h69⟩, ⟨h78, h79⟩, h89⟩ := labels_distinct K hK
  unfold spec_slot_unset
  rintro (h | h | h | h | h | h | h | h)
  · exact absurd h.1.symm h08
  · exact absurd h.1.symm h18
  · exact absurd h.1.symm h28
  · exact absurd h.1.symm h38
  · exact absurd h.1.symm h48
  · exact absurd h.1.symm h58
  · exact absurd h.1.symm h68
  · exact absurd h.1.symm h78

theorem slot_unset_at_LANG_SC (K : MethodTypes) (session : LIBSSH2_SESSION)
    (hK : K.labels.Nodup) :
    ¬ spec_slot_unset K session K.LANG_SC := by
  obtain ⟨⟨h01, h02, h03, h04, h05, h06, h07, h08, h09⟩,
    ⟨h12, h13, h14, h15, h16, h17, h18, h19⟩, ⟨h23, h24, h25, h26, h27, h28, h29⟩,
    ⟨h34, h35, h36, h37, h38, h39⟩, ⟨h45, h46, h47, h48, h49⟩, ⟨h56, h57, h58, h59⟩,
    ⟨h67, h68, h69⟩, ⟨h78, h79⟩, h89⟩ := labels_distinct K hK
  unfold spec_slot_unset
  rintro (h | h | h | h | h | h | h | h)
  · exact absurd h.1.symm h09
  · exact absurd h.1.symm h19
  · exact absurd h.1.symm h29
  · exact absurd h.1.symm h39
  · exact absurd h.1.symm h49
  · exact absurd h.1.symm h59
  · exact absurd h.1.symm h69
  · exact absurd h.1.symm h79

/-- Every call of `libssh2_session_methods` falls in exactly one of three cases:
unrecognized type, recognized type with an unset slot, recognized type with a
name to return. -/
theorem session_methods_cases (E : ErrorCodes) (K : MethodTypes) (session : LIBSSH2_SESSION)
    (t : Int) (hK : K.labels.Nodup) :
    (t ∉ K.labels ∧ libssh2_session_methods E K session t
        = (none, libssh2_error session E.INVAL
            (cstr "Invalid parameter specified for method_type") 0))
    ∨ (t ∈ K.labels ∧ spec_slot_unset K session t ∧ libssh2_session_methods E K session t
        = (none, libssh2_error session E.METHOD_NONE (cstr "No method negotiated") 0))
    ∨ (t ∈ K.labels ∧ ¬ spec_slot_unset K session t
        ∧ ∃ name, libssh2_session_methods E K session t = (some name, session)) := by
  by_cases hmem : t ∈ K.labels
  · right
    have hcases : t = K.KEX ∨ t = K.HOSTKEY ∨ t = K.CRYPT_CS ∨ t = K.CRYPT_SC ∨ t = K.MAC_CS
        ∨ t = K.MAC_SC ∨ t = K.COMP_CS ∨ t = K.COMP_SC ∨ t = K.LANG_CS ∨ t = K.LANG_SC := by
      simpa only [MethodTypes.labels, List.mem_cons, List.mem_singleton, List.not_mem_nil,
        or_false] using hmem
    rcases hcases with h | h | h | h | h | h | h | h | h | h
    · subst h
      rw [session_methods_at_KEX E K session hK]
      rcases hs : session.kex with _ | m
      · exact Or.inl ⟨hmem, (slot_unset_at_KEX K session hK).mpr hs, rfl⟩
      · refine Or.inr ⟨hmem, fun hu => ?_, m.name, rfl⟩
        rw [(slot_unset_at_KEX K session hK).mp hu] at hs
        cases hs
    · subst h
      rw [session_methods_at_HOSTKEY E K session hK]
      rcases hs : session.hostkey with _ | m
      · exact Or.inl ⟨hmem, (slot_unset_at_HOSTKEY K session hK).mpr hs, rfl⟩
      · refine Or.inr ⟨hmem, fun hu => ?_, m.name, rfl⟩
        rw [(slot_unset_at_HOSTKEY K session hK).mp hu] at hs
        cases hs
    · subst h
      rw [session_methods_at_CRYPT_CS E K session hK]
      rcases hs : session.local_.crypt with _ | m
      · exact Or.inl ⟨hmem, (slot_unset_at_CRYPT_CS K session hK).mpr hs, rfl⟩
      · refine Or.inr ⟨hmem, fun hu => ?_, m.name, rfl⟩
        rw [(slot_unset_at_CRYPT_CS K session hK).mp hu] at hs
        cases hs
    · subst h
      rw [session_methods_at_CRYPT_SC E K session hK]
      rcases hs : session.remote.crypt with _ | m
      · exact Or.inl ⟨hmem, (slot_unset_at_CRYPT_SC K session hK).mpr hs, rfl⟩
      · refine Or.inr ⟨hmem, fun hu => ?_, m.name, rfl⟩
        rw [(slot_unset_at_CRYPT_SC K session hK).mp hu] at hs
        cases hs
    · subst h
      rw [session_methods_at_MAC_CS E K session hK]
      rcases hs : session.local_.mac with _ | m
      · exact Or.inl ⟨hmem, (slot_unset_at_MAC_CS K session hK).mpr hs, rfl⟩
      · refine Or.inr ⟨hmem, fun hu => ?_, m.name, rfl⟩
        rw [(slot_unset_at_MAC_CS K session hK).mp hu] at hs
        cases hs
    · subst h
      rw [session_methods_at_MAC_SC E K session hK]
      rcases hs : session.remote.mac with _ | m
      · exact Or.inl ⟨hmem, (slot_unset_at_MAC_SC K session hK).mpr hs, rfl⟩
      · refine Or.inr ⟨hmem, fun hu => ?_, m.name, rfl⟩
        rw [(slot_unset_at_MAC_SC K session hK).mp hu] at hs
        cases hs
    · subst h
      rw [session_methods_at_COMP_CS E K session hK]
      rcases hs : session.local_.comp with _ | m
      · exact Or.inl ⟨hmem, (slot_unset_at_COMP_CS K session hK).mpr hs, rfl⟩
      · refine Or.inr ⟨hmem, fun hu => ?_, m.name, rfl⟩
        rw [(slot_unset_at_COMP_CS K session hK).mp hu] at hs
        cases hs
    · subst h
      rw [session_methods_at_COMP_SC E K session hK]
      rcases hs : session.remote.comp with _ | m
      · exact Or.inl ⟨hmem, (slot_unset_at_COMP_SC K session hK).mpr hs, rfl⟩
      · refine Or.inr ⟨hmem, fun hu => ?_, m.name, rfl⟩
        rw [(slot_unset_at_COMP_SC K session hK).mp hu] at hs
        cases hs
    · subst h
      rw [session_methods_at_LANG_CS E K session hK]
      exact Or.inr ⟨hmem, slot_unset_at_LANG_CS K session hK, [], rfl⟩
    · subst h
      rw [session_methods_at_LANG_SC E K session hK]
      exact Or.inr ⟨hmem, slot_unset_at_LANG_SC K session hK, [], rfl⟩
  · exact Or.inl ⟨hmem, session_methods_unrecognized E K session t hmem⟩

theorem session_methods_unset_mem (K : MethodTypes) (session : LIBSSH2_SESSION) (t : Int)
    (hu : spec_slot_unset K session t) : t ∈ K.labels := by
  unfold MethodTypes.labels
  rcases hu with h | h | h | h | h | h | h | h <;> simp [h.1]

/-- C9: with pairwise distinct case labels, `libssh2_session_methods` returns null
exactly when the method type is unrecognized or the designated slot is unset; an
unrecognized type records `LIBSSH2_ERROR_INVAL`, an unset slot records
`LIBSSH2_ERROR_METHOD_NONE`, and whenever a name is returned the session, its
error slot included, is unchanged. -/
theorem session_methods_null_iff (E : ErrorCodes) (K : MethodTypes)
    (session : LIBSSH2_SESSION) (t : Int) (hK : K.labels.Nodup) :
    ((libssh2_session_methods E K session t).1 = none
        ↔ (t ∉ K.labels ∨ spec_slot_unset K session t))
    ∧ (t ∉ K.labels → libssh2_session_methods E K session t
        = (none, libssh2_error session E.INVAL
            (cstr "Invalid parameter specified for method_type") 0))
    ∧ (spec_slot_unset K session t → libssh2_session_methods E K session t
        = (none, libssh2_error session E.METHOD_NONE (cstr "No method negotiated") 0))
    ∧ ((libssh2_session_methods E K session t).1 ≠ none
        → (libssh2_session_methods E K session t).2 = session) := by
  rcases session_methods_cases E K session t hK with
    ⟨hn, he⟩ | ⟨hm, hu, he⟩ | ⟨hm, hnu, name, he⟩
  · rw [he]
    exact ⟨⟨fun _ => Or.inl hn, fun _ => rfl⟩, fun _ => rfl,
      fun hu => absurd (session_methods_unset_mem K session t hu) hn, fun h => absurd rfl h⟩
  · rw [he]
    exact ⟨⟨fun _ => Or.inr hu, fun _ => rfl⟩, fun hn => absurd hm hn, fun _ => rfl,
      fun h => absurd rfl h⟩
  · rw [he]
    refine ⟨⟨fun h => ?_, fun h => ?_⟩, fun hn => absurd hm hn, fun hu => absurd hu hnu,
      fun _ => rfl⟩
    · cases h
    · rcases h with h | h
      · exact absurd hm h
      · exact absurd h hnu

/-- Witness of C9: the cipher of the local direction queried on a fresh session. -/
theorem session_methods_null_iff_witness :
    ((libssh2_session_methods sampleErrorCodes sampleMethodTypes {} 2).1 = none
        ↔ ((2 : Int) ∉ sampleMethodTypes.labels ∨ spec_slot_unset sampleMethodTypes {} 2))
    ∧ ((2 : Int) ∉ sampleMethodTypes.labels
        → libssh2_session_methods sampleErrorCodes sampleMethodTypes {} 2
        = (none, libssh2_error {} sampleErrorCodes.INVAL
            (cstr "Invalid parameter specified for method_type") 0))
    ∧ (spec_slot_unset sampleMethodTypes {} 2
        → libssh2_session_methods sampleErrorCodes sampleMethodTypes {} 2
        = (none, libssh2_error {} sampleErrorCodes.METHOD_NONE (cstr "No method negotiated") 0))
    ∧ ((libssh2_session_methods sampleErrorCodes sampleMethodTypes {} 2).1 ≠ none
        → (libssh2_session_methods sampleErrorCodes sampleMethodTypes {} 2).2 = {}) :=
  session_methods_null_iff sampleErrorCodes sampleMethodTypes {} 2 (by decide)

/-- C10: with pairwise distinct case labels, on a session whose eight method
slots are set the `*_CS` types return the names of the local direction, the
`*_SC` types the names of the remote direction, and KEX and HOSTKEY the names of
the session-level methods; the session is unchanged. -/
theorem session_methods_directions (E : ErrorCodes) (K : MethodTypes)
    (session : LIBSSH2_SESSION) (hK : K.labels.Nodup)
    (kex : LIBSSH2_KEX_METHOD) (hostkey : LIBSSH2_HOSTKEY_METHOD)
    (X Y : LIBSSH2_CRYPT_METHOD) (M M' : LIBSSH2_MAC_METHOD) (C C' : LIBSSH2_COMP_METHOD)
    (hkex : session.kex = some kex) (hhostkey : session.hostkey = some hostkey)
    (hX : session.local_.crypt = some X) (hY : session.remote.crypt = some Y)
    (hM : session.local_.mac = some M) (hM' : session.remote.mac = some M')
    (hC : session.local_.comp = some C) (hC' : session.remote.comp = some C') :
    libssh2_session_methods E K session K.CRYPT_CS = (some X.name, session)
    ∧ libssh2_session_methods E K session K.CRYPT_SC = (some Y.name, session)
    ∧ libssh2_session_methods E K session K.MAC_CS = (some M.name, session)
    ∧ libssh2_session_methods E K session K.MAC_SC = (some M'.name, session)
    ∧ libssh2_session_methods E K session K.COMP_CS = (some C.name, session)
    ∧ libssh2_session_methods E K session K.COMP_SC = (some C'.name, session)
    ∧ libssh2_session_methods E K session K.KEX = (some kex.name, session)
    ∧ libssh2_session_methods E K session K.HOSTKEY = (some hostkey.name, session) := by
  refine ⟨?_, ?_, ?_, ?_, ?_, ?_, ?_, ?_⟩
  · rw [session_methods_at_CRYPT_CS E K session hK, hX]; rfl
  · rw [session_methods_at_CRYPT_SC E K session hK, hY]; rfl
  · rw [session_methods_at_MAC_CS E K session hK, hM]; rfl
  · rw [session_methods_at_MAC_SC E K session hK, hM']; rfl
  · rw [session_methods_at_COMP_CS E K session hK, hC]; rfl
  · rw [session_methods_at_COMP_SC E K session hK, hC']; rfl
  · rw [session_methods_at_KEX E K session hK, hkex]; rfl
  · rw [session_methods_at_HOSTKEY E K session hK, hhostkey]; rfl

/-- Witness of C10: a session with different methods in the two directions. -/
theorem session_methods_directions_witness :
    libssh2_session_methods sampleErrorCodes sampleMethodTypes sampleNegotiated 2
        = (some (cstr "aes128-cbc"), sampleNegotiated)
    ∧ libssh2_session_methods sampleErrorCodes sampleMethodTypes sampleNegotiated 3
        = (some (cstr "3des-cbc"), sampleNegotiated)
    ∧ libssh2_session_methods sampleErrorCodes sampleMethodTypes sampleNegotiated 4
        = (some (cstr "hmac-sha1"), sampleNegotiated)
    ∧ libssh2_session_methods sampleErrorCodes sampleMethodTypes sampleNegotiated 5
        = (some (cstr "hmac-md5"), sampleNegotiated)
    ∧ libssh2_session_methods sampleErrorCodes sampleMethodTypes sampleNegotiated 6
        = (some (cstr "none"), sampleNegotiated)
    ∧ libssh2_session_methods sampleErrorCodes sampleMethodTypes sampleNegotiated 7
        = (some (cstr "zlib"), sampleNegotiated)
    ∧ libssh2_session_methods sampleErrorCodes sampleMethodTypes sampleNegotiated 0
        = (some (cstr "diffie-hellman-group1-sha1"), sampleNegotiated)
    ∧ libssh2_session_methods sampleErrorCodes sampleMethodTypes sampleNegotiated 1
        = (some (cstr "ssh-rsa"), sampleNegotiated) :=
  session_methods_directions sampleErrorCodes sampleMethodTypes sampleNegotiated (by decide)
    { name := cstr "diffie-hellman-group1-sha1" } { name := cstr "ssh-rsa", dtor := true }
    { name := cstr "aes128-cbc", flags := 1, dtor := false }
    { name := cstr "3des-cbc", flags := 1, dtor := false }
    { name := cstr "hmac-sha1", dtor := true } { name := cstr "hmac-md5", dtor := true }
    { name := cstr "none", dtor := false } { name := cstr "zlib", dtor := true }
    rfl rfl rfl rfl rfl rfl rfl rfl

/-! ### `libssh2_session_init_ex` and allocation failure -/

/-- C11 (the code at the failing inputs): when the allocator fails,
`libssh2_session_init_ex` and `libssh2_banner_receive` write through the null
result instead of returning a failure, while `libssh2_banner_set` and
`libssh2_session_disconnect_ex` return -1 with `LIBSSH2_ERROR_ALLOC` recorded. -/
theorem alloc_failure_init_and_banner_receive_fault :
    libssh2_session_init_ex sampleDefaults 1024 (fun _ _ _ => false) 0 0 0 0
      = ([(sampleDefaults.libssh2_default_alloc, 1024, 0)], .fault)
    ∧ libssh2_banner_receive 11 (fun _ => false) {}
        ((cstr "SSH-2.0-test\r\n").map RecvResult.deliver) = .fault
    ∧ libssh2_banner_set sampleErrorCodes (fun _ => false) {} (some (cstr "X"))
      = (-1, libssh2_error {} sampleErrorCodes.ALLOC
          (cstr "Unable to allocate memory for local banner") 0)
    ∧ libssh2_session_disconnect_ex sampleErrorCodes (fun _ => false) (fun s _ => (0, s)) {} 11
        (some (cstr "bye")) (some [])
      = (-1, libssh2_error {} sampleErrorCodes.ALLOC
          (cstr "Unable to allocate memory for disconnect packet") 0, [Call.alloc 16]) := by
  decide

/-- C15: whichever of the three allocator overrides are supplied (non-null), when
the resolved allocate function returns a block `libssh2_session_init_ex` calls
that function once, for the session struct, and returns a session whose three
allocator slots hold the caller's function where one was supplied and the
default otherwise, none of them null, with the opaque context stored as given. -/
theorem init_ex_allocator_slots (D : DefaultAllocators) (sizeof_session : Nat)
    (invoke : Nat → Nat → Nat → Bool) (my_alloc my_free my_realloc abstract : Nat)
    (hD : D.libssh2_default_alloc ≠ 0 ∧ D.libssh2_default_free ≠ 0
      ∧ D.libssh2_default_realloc ≠ 0)
    (hok : invoke (if my_alloc ≠ 0 then my_alloc else D.libssh2_default_alloc)
      sizeof_session abstract = true) :
    ∃ session,
      libssh2_session_init_ex D sizeof_session invoke my_alloc my_free my_realloc abstract
        = ([(if my_alloc ≠ 0 then my_alloc else D.libssh2_default_alloc, sizeof_session,
              abstract)], .returned session)
      ∧ session.alloc = (if my_alloc ≠ 0 then my_alloc else D.libssh2_default_alloc)
      ∧ session.free = (if my_free ≠ 0 then my_free else D.libssh2_default_free)
      ∧ session.realloc = (if my_realloc ≠ 0 then my_realloc else D.libssh2_default_realloc)
      ∧ session.alloc ≠ 0 ∧ session.free ≠ 0 ∧ session.realloc ≠ 0
      ∧ session.abstract = abstract := by
  obtain ⟨ha, hf, hr⟩ := hD
  refine ⟨{ alloc := if my_alloc ≠ 0 then my_alloc else D.libssh2_default_alloc,
            free := if my_free ≠ 0 then my_free else D.libssh2_default_free,
            realloc := if my_realloc ≠ 0 then my_realloc else D.libssh2_default_realloc,
            abstract := abstract }, ?_, rfl, rfl, rfl, ?_, ?_, ?_, rfl⟩
  · unfold libssh2_session_init_ex
    simp only [hok, Bool.not_true, Bool.false_eq_true, if_false]
  · show (if my_alloc ≠ 0 then my_alloc else D.libssh2_default_alloc) ≠ 0
    split <;> assumption
  · show (if my_free ≠ 0 then my_free else D.libssh2_default_free) ≠ 0
    split <;> assumption
  · show (if my_realloc ≠ 0 then my_realloc else D.libssh2_default_realloc) ≠ 0
    split <;> assumption

/-- Witness of C15: only the free function is overridden. -/
theorem init_ex_allocator_slots_witness :
    ∃ session,
      libssh2_session_init_ex sampleDefaults 1024 (fun _ _ _ => true) 0 8192 0 77
        = ([(if (0 : Nat) ≠ 0 then 0 else sampleDefaults.libssh2_default_alloc, 1024, 77)],
            .returned session)
      ∧ session.alloc = (if (0 : Nat) ≠ 0 then 0 else sampleDefaults.libssh2_default_alloc)
      ∧ session.free = (if (8192 : Nat) ≠ 0 then 8192 else sampleDefaults.libssh2_default_free)
      ∧ session.realloc
          = (if (0 : Nat) ≠ 0 then 0 else sampleDefaults.libssh2_default_realloc)
      ∧ session.alloc ≠ 0 ∧ session.free ≠ 0 ∧ session.realloc ≠ 0
      ∧ session.abstract = 77 :=
  init_ex_allocator_slots sampleDefaults 1024 (fun _ _ _ => true) 0 8192 0 77
    (by decide) rfl

/-! ### `libssh2_session_flag` -/

theorem nat_ldiff_zero (n : Nat) : Nat.ldiff n 0 = n :=
  Nat.eq_of_testBit_eq (fun k => by simp [Nat.testBit_ldiff])

theorem int_lor_zero (m : Int) : Int.lor m 0 = m := by
  cases m <;> simp [Int.lor, nat_ldiff_zero]

theorem int_land_lnot_zero (m : Int) : Int.land m (Int.lnot 0) = m := by
  have h : Int.lnot 0 = Int.negSucc 0 := rfl
  rw [h]
  cases m <;> simp [Int.land, nat_ldiff_zero]

/-- C18: for every current bitmask `F`, flag argument `f` and enable value `v`,
`libssh2_session_flag` stores `F | f` when `v` is non-zero and `F & ~f` when it
is zero, touches no other field, and returns the stored value; bit by bit the
result is `F or f`, respectively `F and not f`; with `f = 0` the session is
unchanged and the current value is returned, for either `v`. -/
theorem session_flag_update (session : LIBSSH2_SESSION) (f v : Int) :
    libssh2_session_flag session f v
        = (if v ≠ 0 then Int.lor session.flags f else Int.land session.flags (Int.lnot f),
           { session with
             flags := if v ≠ 0 then Int.lor session.flags f
                      else Int.land session.flags (Int.lnot f) })
    ∧ (libssh2_session_flag session f v).1 = (libssh2_session_flag session f v).2.flags
    ∧ (∀ k : Nat, (libssh2_session_flag session f v).1.testBit k
        = if v ≠ 0 then (session.flags.testBit k || f.testBit k)
          else (session.flags.testBit k && !f.testBit k))
    ∧ libssh2_session_flag session 0 v = (session.flags, session) := by
  refine ⟨?_, rfl, ?_, ?_⟩
  · unfold libssh2_session_flag
    by_cases hv : v = 0 <;> simp [hv]
  · intro k
    unfold libssh2_session_flag
    by_cases hv : v = 0
    · simp [hv, Int.testBit_land, Int.testBit_lnot]
    · simp [hv, Int.testBit_lor]
  · unfold libssh2_session_flag
    by_cases hv : v = 0
    · simp [hv, int_land_lnot_zero]
    · simp [hv, int_lor_zero]

/-! ### `libssh2_session_last_error` -/

/-- C16: with an error pending, the message pointer supplied and an owned copy
requested, `libssh2_session_last_error` hands out `session->err_msg` itself and
clears `err_should_free` when the message is non-null and owned; otherwise
(the stored length not exceeding the message, the allocation succeeding) it
allocates `err_msglen + 1` bytes through the session allocator and fills them
with the message and a NUL, leaving the session unchanged; either way it
returns `err_code` and reports `err_msglen`. -/
theorem last_error_owned_copy (alloc : Nat → Bool) (session : LIBSSH2_SESSION)
    (errmsg_len : Bool) (want_buf : Int)
    (hpending : session.err_code ≠ 0) (hwant : want_buf ≠ 0)
    (hlen : session.err_msglen ≤ (session.err_msg.getD []).length)
    (halloc : alloc (session.err_msglen + 1) = true) :
    libssh2_session_last_error alloc session true errmsg_len want_buf
      = if session.err_msg.isSome ∧ session.err_should_free ≠ 0 then
          .returned { ret := session.err_code
                      errmsg := some (.session_buffer (session.err_msg.getD []))
                      errmsg_len := if errmsg_len then some session.err_msglen else none
                      session := { session with err_should_free := 0 }
                      calls := [] }
        else
          .returned { ret := session.err_code
                      errmsg := some (.allocated
                        ((session.err_msg.getD []).take session.err_msglen ++ [0]))
                      errmsg_len := if errmsg_len then some session.err_msglen else none
                      session := session
                      calls := [Call.alloc (session.err_msglen + 1)] } := by
  unfold libssh2_session_last_error
  rw [if_neg hpending]
  cases hm : session.err_msg with
  | none =>
    rw [hm] at hlen
    have h0 : session.err_msglen = 0 := by simpa using hlen
    rw [h0] at halloc
    simp [hwant, h0, halloc]
  | some m =>
    rw [hm] at hlen
    simp only [Option.getD_some] at hlen
    have hle : session.err_msglen ≤ m.length + 1 := by omega
    by_cases hown : session.err_should_free = 0
    · simp [hwant, hown, halloc, hle, memcpy, List.take_append_of_le_length hlen]
    · simp [hwant, hown]

/-- Witness of C16: an owned message "oops" is handed over as it is. -/
theorem last_error_owned_copy_witness :
    libssh2_session_last_error (fun _ => true)
        { err_code := -14, err_msg := some (cstr "oops"), err_msglen := 4, err_should_free := 1 }
        true true 1
      = if ({ err_code := -14, err_msg := some (cstr "oops"), err_msglen := 4,
              err_should_free := 1 } : LIBSSH2_SESSION).err_msg.isSome
            ∧ ({ err_code := -14, err_msg := some (cstr "oops"), err_msglen := 4,
                 err_should_free := 1 } : LIBSSH2_SESSION).err_should_free ≠ 0 then
          .returned { ret := -14
                      errmsg := some (.session_buffer (cstr "oops"))
                      errmsg_len := if true then some 4 else none
                      session := { err_code := -14, err_msg := some (cstr "oops"),
                                   err_msglen := 4, err_should_free := 0 }
                      calls := [] }
        else
          .returned { ret := -14
                      errmsg := some (.allocated ((cstr "oops").take 4 ++ [0]))
                      errmsg_len := if true then some 4 else none
                      session := { err_code := -14, err_msg := some (cstr "oops"),
                                   err_msglen := 4, err_should_free := 1 }
                      calls := [Call.alloc (4 + 1)] } :=
  last_error_owned_copy (fun _ => true)
    { err_code := -14, err_msg := some (cstr "oops"), err_msglen := 4, err_should_free := 1 }
    true 1 (by decide) (by decide) (by decide) rfl

/-- C17: with no error pending, `libssh2_session_last_error` returns 0, reports
length 0 and leaves the session unchanged; without `want_buf` the message is
the literal empty string and no allocation is made, with `want_buf` (the
allocation succeeding) it is a one-byte block from the session allocator that
holds a NUL. -/
theorem last_error_none_pending (alloc : Nat → Bool) (session : LIBSSH2_SESSION)
    (want_buf : Int) (hnone : session.err_code = 0) (halloc : alloc 1 = true) :
    libssh2_session_last_error alloc session true true want_buf
      = .returned { ret := 0
                    errmsg := some (if want_buf ≠ 0 then .allocated [0] else .empty_literal)
                    errmsg_len := some 0
                    session := session
                    calls := if want_buf ≠ 0 then [Call.alloc 1] else [] } := by
  unfold libssh2_session_last_error
  by_cases hw : want_buf = 0 <;> simp [hnone, halloc, hw]

/-- Witness of C17: an owned copy requested from a fresh session. -/
theorem last_error_none_pending_witness :
    libssh2_session_last_error (fun _ => true) {} true true 1
      = .returned { ret := 0
                    errmsg := some (if (1 : Int) ≠ 0 then .allocated [0] else .empty_literal)
                    errmsg_len := some 0
                    session := {}
                    calls := if (1 : Int) ≠ 0 then [Call.alloc 1] else [] } :=
  last_error_none_pending (fun _ => true) {} 1 rfl rfl

/-! ### `libssh2_session_disconnect_ex`: result and scratch buffer -/

/-- C19: `libssh2_session_disconnect_ex` returns -1 exactly when the scratch
buffer cannot be allocated, and then records `LIBSSH2_ERROR_ALLOC` and calls
neither the packet writer nor `LIBSSH2_FREE`; in every other case it returns 0,
whatever the packet writer returns and does to the session, after one call of
the writer and exactly one `LIBSSH2_FREE` of the scratch buffer. -/
theorem disconnect_result (E : ErrorCodes) (alloc : Nat → Bool)
    (packet_write : LIBSSH2_SESSION → List Nat → Int × LIBSSH2_SESSION)
    (session : LIBSSH2_SESSION) (reason : Int) (description lang : Option (List Nat)) :
    ((libssh2_session_disconnect_ex E alloc packet_write session reason description lang).1 = -1
        ↔ alloc ((description.map strlen).getD 0 + (lang.map strlen).getD 0 + 13) = false)
    ∧ (alloc ((description.map strlen).getD 0 + (lang.map strlen).getD 0 + 13) = false →
        libssh2_session_disconnect_ex E alloc packet_write session reason description lang
          = (-1, libssh2_error session E.ALLOC
                (cstr "Unable to allocate memory for disconnect packet") 0,
              [Call.alloc ((description.map strlen).getD 0 + (lang.map strlen).getD 0 + 13)]))
    ∧ (alloc ((description.map strlen).getD 0 + (lang.map strlen).getD 0 + 13) = true →
        ∃ data,
          libssh2_session_disconnect_ex E alloc packet_write session reason description lang
            = (0, (packet_write session data).2,
                [Call.alloc ((description.map strlen).getD 0 + (lang.map strlen).getD 0 + 13),
                 Call.packet_write data, Call.free data])
          ∧ (libssh2_session_disconnect_ex E alloc packet_write session reason description
              lang).2.2.count (Call.free data) = 1) := by
  have hsize : (match description with | some d => strlen d | none => 0)
      + (match lang with | some l => strlen l | none => 0) + 13
      = (description.map strlen).getD 0 + (lang.map strlen).getD 0 + 13 := by
    cases description <;> cases lang <;> rfl
  unfold libssh2_session_disconnect_ex
  simp only [hsize]
  cases hA : alloc ((description.map strlen).getD 0 + (lang.map strlen).getD 0 + 13)
  · refine ⟨by simp, ?_, ?_⟩
    · intro _
      simp
    · intro h
      cases h
  · simp only [Bool.not_true, Bool.false_eq_true, if_false]
    refine ⟨by simp, ?_, ?_⟩
    · intro h
      cases h
    · intro _
      exact ⟨_, rfl, by simp [List.count_cons]⟩

/-- Witness of C19: the writer fails and the call still returns 0. -/
theorem disconnect_result_witness :
    ((libssh2_session_disconnect_ex sampleErrorCodes (fun _ => true) (fun s _ => (-1, s)) {} 11
        (some (cstr "bye")) none).1 = -1
        ↔ (fun _ => true) (((some (cstr "bye")).map strlen).getD 0
            + ((none : Option (List Nat)).map strlen).getD 0 + 13) = false)
    ∧ ((fun _ => true) (((some (cstr "bye")).map strlen).getD 0
            + ((none : Option (List Nat)).map strlen).getD 0 + 13) = false →
        libssh2_session_disconnect_ex sampleErrorCodes (fun _ => true) (fun s _ => (-1, s)) {} 11
            (some (cstr "bye")) none
          = (-1, libssh2_error {} sampleErrorCodes.ALLOC
                (cstr "Unable to allocate memory for disconnect packet") 0,
              [Call.alloc (((some (cstr "bye")).map strlen).getD 0
                + ((none : Option (List Nat)).map strlen).getD 0 + 13)]))
    ∧ ((fun _ => true) (((some (cstr "bye")).map strlen).getD 0
            + ((none : Option (List Nat)).map strlen).getD 0 + 13) = true →
        ∃ data,
          libssh2_session_disconnect_ex sampleErrorCodes (fun _ => true) (fun s _ => (-1, s)) {}
              11 (some (cstr "bye")) none
            = (0, ((fun s _ => (-1, s)) ({} : LIBSSH2_SESSION) data :
                    Int × LIBSSH2_SESSION).2,
                [Call.alloc (((some (cstr "bye")).map strlen).getD 0
                  + ((none : Option (List Nat)).map strlen).getD 0 + 13),
                 Call.packet_write data, Call.free data])
          ∧ (libssh2_session_disconnect_ex sampleErrorCodes (fun _ => true)
              (fun s _ => (-1, s)) {} 11 (some (cstr "bye")) none).2.2.count
                (Call.free data) = 1) :=
  disconnect_result sampleErrorCodes (fun _ => true) (fun s _ => (-1, s)) {} 11
    (some (cstr "bye")) none

/-! ### `libssh2_banner_receive`: stored banner and buffer accesses -/

theorem banner_receive_store_run_outcome (alloc : Nat → Bool) (session : LIBSSH2_SESSION)
    (banner : List Nat) :
    (banner_receive_store_run alloc session banner).2
      = banner_receive_store alloc session banner := by
  unfold banner_receive_store_run banner_receive_store
  simp only
  split
  · rfl
  · split <;> rfl

/-- The recorded run ends as the plain embedding does. -/
theorem banner_receive_run_outcome (eagain : Int) (alloc : Nat → Bool)
    (session : LIBSSH2_SESSION) :
    ∀ (recvs : List RecvResult) (banner : List Nat),
      (banner_receive_run eagain alloc session recvs banner).2
        = banner_receive_loop eagain alloc session recvs banner := by
  intro recvs
  induction recvs with
  | nil =>
    intro banner
    unfold banner_receive_run banner_receive_loop
    split
    · rfl
    · exact banner_receive_store_run_outcome alloc session banner
  | cons r rest ih =>
    intro banner
    unfold banner_receive_run banner_receive_loop
    split
    · split
      · rfl
      · split
        · exact ih banner
        · split
          · rfl
          · exact ih (banner ++ [r.c])
    · exact banner_receive_store_run_outcome alloc session banner

/-- Invariant of the read loop: no NUL has been stored, no LF before the last
byte, and at most 256 bytes. -/
theorem banner_stripped_props (banner : List Nat)
    (hnul : ∀ c ∈ banner, c ≠ 0) (hnl : ∀ c ∈ banner.dropLast, c ≠ 10)
    (hlen : banner.length ≤ 256) :
    (banner.rdropWhile (fun c => c == 10 || c == 13)).length ≤ 256
    ∧ (∀ c ∈ banner.rdropWhile (fun c => c == 10 || c == 13), c ≠ 0 ∧ c ≠ 10)
    ∧ (banner.rdropWhile (fun c => c == 10 || c == 13)).getLast? ≠ some 13 := by
  have hpre := List.rdropWhile_prefix (fun c => c == 10 || c == 13) banner
  refine ⟨le_trans hpre.length_le hlen, ?_, ?_⟩
  · intro c hc
    refine ⟨hnul c (hpre.subset hc), ?_⟩
    rcases List.eq_nil_or_concat banner with hnil | ⟨l, a, hcat⟩
    · subst hnil
      simp at hc
    · rw [List.concat_eq_append] at hcat
      subst hcat
      rw [List.dropLast_concat] at hnl
      by_cases hp : (a == 10 || a == 13) = true
      · rw [List.rdropWhile_concat_pos (fun c => c == 10 || c == 13) l a hp] at hc
        exact hnl c ((List.rdropWhile_prefix (fun c => c == 10 || c == 13) l).subset hc)
      · rw [List.rdropWhile_concat_neg (fun c => c == 10 || c == 13) l a hp] at hc
        rcases List.mem_append.mp hc with h | h
        · exact hnl c h
        · have hca : c = a := by simpa using h
          subst hca
          intro h10
          exact hp (by simp [h10])
  · intro hlast
    have hne : banner.rdropWhile (fun c => c == 10 || c == 13) ≠ [] := by
      intro h0
      rw [h0] at hlast
      simp at hlast
    have hnot := List.rdropWhile_last_not (fun c => c == 10 || c == 13) banner hne
    rw [List.getLast?_eq_getLast _ hne] at hlast
    have h13 : (banner.rdropWhile (fun c => c == 10 || c == 13)).getLast hne = 13 := by
      simpa using hlast
    rw [h13] at hnot
    exact hnot (by decide)

theorem no_lf_of_dropLast (banner : List Nat) (hnl : ∀ c ∈ banner.dropLast, c ≠ 10)
    (hlast : banner.getLast? ≠ some 10) : ∀ c ∈ banner, c ≠ 10 := by
  rcases List.eq_nil_or_concat banner with hnil | ⟨l, a, hcat⟩
  · subst hnil
    intro c hc
    simp at hc
  · rw [List.concat_eq_append] at hcat
    subst hcat
    rw [List.dropLast_concat] at hnl
    rw [List.getLast?_concat] at hlast
    intro c hc
    rcases List.mem_append.mp hc with h | h
    · exact hnl c h
    · have hca : c = a := by simpa using h
      subst hca
      intro h10
      exact hlast (by rw [h10])

theorem banner_receive_store_run_safe (alloc : Nat → Bool) (session : LIBSSH2_SESSION)
    (banner : List Nat) (hnul : ∀ c ∈ banner, c ≠ 0)
    (hnl : ∀ c ∈ banner.dropLast, c ≠ 10) (hlen : banner.length ≤ 256) :
    spec_banner_receive_safe session (banner_receive_store_run alloc session banner).1
      (banner_receive_store_run alloc session banner).2 := by
  obtain ⟨h256, hmem, hcr⟩ := banner_stripped_props banner hnul hnl hlen
  unfold banner_receive_store_run
  simp only
  by_cases h0 : (banner.rdropWhile (fun c => c == 10 || c == 13)).length = 0
  · rw [if_pos h0]
    refine ⟨?_, ?_, ?_⟩
    · intro i c h
      simp at h
    · intro n h
      simp at h
    · intro s' h
      simp at h
  · rw [if_neg h0]
    have hne : banner.rdropWhile (fun c => c == 10 || c == 13) ≠ [] := by
      intro h
      exact h0 (by rw [h]; rfl)
    cases hA : alloc ((banner.rdropWhile (fun c => c == 10 || c == 13)).length + 1)
    · simp only [Bool.not_false, if_true]
      refine ⟨?_, ?_, ?_⟩
      · intro i c h
        simp at h
      · intro n h
        refine ⟨banner.rdropWhile (fun c => c == 10 || c == 13), ?_, Or.inl rfl⟩
        simpa using h
      · intro s' h
        cases h
    · simp only [Bool.not_true, Bool.false_eq_true, if_false]
      refine ⟨?_, ?_, ?_⟩
      · intro i c h
        simp at h
      · intro n h
        refine ⟨banner.rdropWhile (fun c => c == 10 || c == 13), ?_, Or.inr rfl⟩
        simpa using h
      · intro s' h
        refine ⟨banner.rdropWhile (fun c => c == 10 || c == 13), ?_, hne, h256, hmem, hcr,
          by simp⟩
        have h2 : (0, banner_stored session
            (banner.rdropWhile (fun c => c == 10 || c == 13))) = ((0 : Int), s') := by
          injection h
        exact (congrArg Prod.snd h2).symm

theorem banner_receive_run_safe (eagain : Int) (alloc : Nat → Bool)
    (session : LIBSSH2_SESSION) :
    ∀ (recvs : List RecvResult) (banner : List Nat), (∀ c ∈ banner, c ≠ 0) →
      (∀ c ∈ banner.dropLast, c ≠ 10) → banner.length ≤ 256 →
      spec_banner_receive_safe session (banner_receive_run eagain alloc session recvs banner).1
        (banner_receive_run eagain alloc session recvs banner).2 := by
  have htrivial : ∀ (o : Outcome (Int × LIBSSH2_SESSION)),
      (∀ s', o ≠ .returned (0, s')) → spec_banner_receive_safe session [] o := by
    intro o ho
    refine ⟨?_, ?_, ?_⟩
    · intro i c h
      simp at h
    · intro n h
      simp at h
    · intro s' h
      exact absurd h (ho s')
  intro recvs
  induction recvs with
  | nil =>
    intro banner hnul hnl hlen
    unfold banner_receive_run
    split
    · exact htrivial _ (fun s' h => by cases h)
    · exact banner_receive_store_run_safe alloc session banner hnul hnl hlen
  | cons r rest ih =>
    intro banner hnul hnl hlen
    unfold banner_receive_run
    split
    · rename_i hguard
      split
      · exact htrivial _ (fun s' h => by
          injection h with h
          have h1 : (1 : Int) = 0 := congrArg Prod.fst h
          exact absurd h1 (by decide))
      · split
        · exact ih banner hnul hnl hlen
        · split
          · exact htrivial _ (fun s' h => by
              injection h with h
              have h1 : (1 : Int) = 0 := congrArg Prod.fst h
              exact absurd h1 (by decide))
          · rename_i hc0
            have hall : ∀ c ∈ banner, c ≠ 10 := by
              rcases hguard.2 with hz | hl
              · intro c hc
                rw [List.length_eq_zero.mp hz] at hc
                simp at hc
              · exact no_lf_of_dropLast banner hnl hl
            obtain ⟨hw, ha, hr⟩ := ih (banner ++ [r.c])
              (by
                intro c hc
                rcases List.mem_append.mp hc with h | h
                · exact hnul c h
                · have hcc : c = r.c := by simpa using h
                  rw [hcc]
                  exact hc0)
              (by rw [List.dropLast_concat]; exact hall)
              (by
                have := hguard.1
                simp
                omega)
            refine ⟨?_, ?_, ?_⟩
            · intro i c h
              rcases List.mem_cons.mp h with h1 | h1
              · injection h1 with hi _
                rw [hi]
                exact hguard.1
              · exact hw i c h1
            · intro n h
              rcases List.mem_cons.mp h with h1 | h1
              · cases h1
              · exact ha n h1
            · intro s' h
              obtain ⟨b, hb1, hb2, hb3, hb4, hb5, hb6⟩ := hr s' h
              exact ⟨b, hb1, hb2, hb3, hb4, hb5, List.mem_cons_of_mem _ hb6⟩
    · exact banner_receive_store_run_safe alloc session banner hnul hnl hlen

/-- C20: on every execution of `libssh2_banner_receive`, for any sequence of
`recv` results and any allocator, each store into the 256-byte local buffer is
at an index below 256 and an allocation is requested only for the length of the
banner to store plus one; and whenever 0 is returned, the banner stored is
non-empty, at most 256 bytes long, contains no NUL and no LF, and does not end
in CR. -/
theorem banner_receive_safe (eagain : Int) (alloc : Nat → Bool) (session : LIBSSH2_SESSION)
    (recvs : List RecvResult) :
    spec_banner_receive_safe session (banner_receive_run eagain alloc session recvs []).1
      (libssh2_banner_receive eagain alloc session recvs) := by
  unfold libssh2_banner_receive
  rw [← banner_receive_run_outcome eagain alloc session recvs []]
  exact banner_receive_run_safe eagain alloc session recvs []
    (by intro c hc; simp at hc) (by intro c hc; simp at hc) (by simp)

/-- Witness of C20: the execution on the stream "SSH-2.0-test\r\n". -/
theorem banner_receive_safe_witness :
    spec_banner_receive_safe {}
      (banner_receive_run 11 (fun _ => true) {}
        ((cstr "SSH-2.0-test\r\n").map RecvResult.deliver) []).1
      (libssh2_banner_receive 11 (fun _ => true) {}
        ((cstr "SSH-2.0-test\r\n").map RecvResult.deliver)) :=
  banner_receive_safe 11 (fun _ => true) {} ((cstr "SSH-2.0-test\r\n").map RecvResult.deliver)

/-! ### `libssh2_session_free` -/

theorem session_free_listeners_stuck :
    ∀ (fuel : Nat) (session : LIBSSH2_SESSION), session.listeners ≠ [] →
      session_free_listeners (fun s => s) fuel session = none := by
  intro fuel
  induction fuel with
  | zero =>
    intro session h
    simp [session_free_listeners, h]
  | succ fuel ih =>
    intro session h
    unfold session_free_listeners
    cases hl : session.listeners with
    | nil => exact absurd hl h
    | cons l rest =>
      simp only
      rw [ih session h]
      rfl

theorem session_free_channels_empty (channel_free : LIBSSH2_SESSION → LIBSSH2_SESSION)
    (fuel : Nat) (session : LIBSSH2_SESSION) (h : session.channels = []) :
    session_free_channels channel_free fuel session = some (session, []) := by
  cases fuel <;> simp [session_free_channels, h]

/-- C12 (the code at the failing input): with one listener whose cancellation
fails and leaves the listener list unchanged, `libssh2_session_free` does not
end within any number of iterations; when the cancellation succeeds the same
session is torn down and its collections end empty. -/
theorem session_free_listener_failure_never_ends :
    (∀ fuel : Nat,
      libssh2_session_free sampleFreeConsts sampleChannelFree (fun s => s) fuel
        { listeners := [9] } = none)
    ∧ libssh2_session_free sampleFreeConsts sampleChannelFree sampleForwardCancel 1
        { listeners := [9] }
      = some ({}, [.forward_cancel 9, .free .session]) := by
  refine ⟨?_, by decide⟩
  intro fuel
  unfold libssh2_session_free
  rw [session_free_channels_empty sampleChannelFree fuel _ rfl]
  simp only
  rw [session_free_listeners_stuck fuel _ (by decide)]

theorem session_free_channels_run (channel_free : LIBSSH2_SESSION → LIBSSH2_SESSION)
    (hbeh : ∀ s, (channel_free s).channels = s.channels
      ∨ (channel_free s).channels = s.channels.tail) :
    ∀ (fuel : Nat) (session : LIBSSH2_SESSION), session.channels.Nodup →
      session.channels.length ≤ fuel →
      ∃ final ds,
        session_free_channels channel_free fuel session
          = some (final, spec_channel_trace session.channels ds)
        ∧ ds.length = session.channels.length ∧ final.channels = [] := by
  intro fuel
  induction fuel with
  | zero =>
    intro session _ hlen
    have hnil : session.channels = [] := List.length_eq_zero.mp (Nat.le_zero.mp hlen)
    exact ⟨session, [], by simp [session_free_channels, hnil, spec_channel_trace], by simp [hnil],
      hnil⟩
  | succ fuel ih =>
    intro session hnodup hlen
    cases hch : session.channels with
    | nil =>
      exact ⟨session, [], by simp [session_free_channels, hch, spec_channel_trace], rfl, hch⟩
    | cons tmp rest =>
      rw [hch] at hnodup hlen
      rw [List.nodup_cons] at hnodup
      have hrestlen : rest.length ≤ fuel := by
        simp at hlen
        omega
      rcases hbeh session with hsame | hgone
      · rw [hch] at hsame
        have hhead : (channel_free session).channels.head? = some tmp := by rw [hsame]; rfl
        have htail : (channel_free session).channels.tail = rest := by rw [hsame]; rfl
        obtain ⟨final, ds, hrun, hds, hfinal⟩ :=
          ih { channel_free session with channels := (channel_free session).channels.tail }
            (by simpa [htail] using hnodup.2) (by simpa [htail] using hrestlen)
        refine ⟨final, false :: ds, ?_, by simpa [htail] using hds, hfinal⟩
        unfold session_free_channels
        simp only [hch, hhead, if_true]
        rw [hrun]
        simp [spec_channel_trace, htail]
      · rw [hch] at hgone
        have hgone2 : (channel_free session).channels = rest := by simpa using hgone
        have hhead : ¬ (channel_free session).channels.head? = some tmp := by
          rw [hgone2]
          intro h
          exact hnodup.1 (List.mem_of_mem_head? h)
        obtain ⟨final, ds, hrun, hds, hfinal⟩ :=
          ih (channel_free session) (by rw [hgone2]; exact hnodup.2)
            (by rw [hgone2]; exact hrestlen)
        refine ⟨final, true :: ds, ?_, by simpa [hgone2] using hds, hfinal⟩
        unfold session_free_channels
        simp only [hch, hhead, if_false]
        rw [hrun]
        simp [spec_channel_trace, hgone2]

theorem session_free_channels_keeps_listeners
    (channel_free : LIBSSH2_SESSION → LIBSSH2_SESSION)
    (hkeep : ∀ s, (channel_free s).listeners = s.listeners) :
    ∀ (fuel : Nat) (session : LIBSSH2_SESSION) (r : LIBSSH2_SESSION × List FreeEvent),
      session_free_channels channel_free fuel session = some r →
      r.1.listeners = session.listeners := by
  intro fuel
  induction fuel with
  | zero =>
    intro session r h
    unfold session_free_channels at h
    split at h
    · injection h with h
      rw [← h]
    · cases h
  | succ fuel ih =>
    intro session r h
    unfold session_free_channels at h
    split at h
    · injection h with h
      rw [← h]
    · simp only at h
      split at h
      · obtain ⟨r', hr', hmap⟩ := Option.map_eq_some'.mp h
        rw [← hmap]
        exact (ih _ r' hr').trans (hkeep session)
      · obtain ⟨r', hr', hmap⟩ := Option.map_eq_some'.mp h
        rw [← hmap]
        exact (ih _ r' hr').trans (hkeep session)

theorem session_free_listeners_run (forward_cancel : LIBSSH2_SESSION → LIBSSH2_SESSION)
    (hcancel : ∀ s, (forward_cancel s).listeners = s.listeners.tail)
    (hkeep : ∀ s, (forward_cancel s).channels = s.channels) :
    ∀ (fuel : Nat) (session : LIBSSH2_SESSION), session.listeners.length ≤ fuel →
      ∃ final calls, session_free_listeners forward_cancel fuel session = some (final, calls)
        ∧ final.listeners = [] ∧ final.channels = session.channels := by
  intro fuel
  induction fuel with
  | zero =>
    intro session hlen
    have hnil : session.listeners = [] := List.length_eq_zero.mp (Nat.le_zero.mp hlen)
    exact ⟨session, [], by simp [session_free_listeners, hnil], hnil, rfl⟩
  | succ fuel ih =>
    intro session hlen
    cases hl : session.listeners with
    | nil => exact ⟨session, [], by simp [session_free_listeners, hl], hl, rfl⟩
    | cons l rest =>
      have hnext : (forward_cancel session).listeners = rest := by
        rw [hcancel session, hl]
        rfl
      obtain ⟨final, calls, hrun, hfl, hfc⟩ := ih (forward_cancel session) (by
        rw [hnext]
        rw [hl] at hlen
        simp at hlen
        omega)
      refine ⟨final, .forward_cancel l :: calls, ?_, hfl, hfc.trans (hkeep session)⟩
      unfold session_free_listeners
      simp only [hl]
      rw [hrun]
      rfl

/-- When the listener cancellation succeeds, unlinking the head listener and
leaving the channels alone, and `libssh2_channel_free` removes the head channel
or leaves the channel list unchanged and leaves the listeners alone,
`libssh2_session_free` ends within as many iterations as the longer of the two
lists, and the channel, listener and packet collections end empty. -/
theorem session_free_ends_empty (Kc : FreeConsts)
    (channel_free forward_cancel : LIBSSH2_SESSION → LIBSSH2_SESSION)
    (fuel : Nat) (session : LIBSSH2_SESSION)
    (hbeh : ∀ s, (channel_free s).channels = s.channels
      ∨ (channel_free s).channels = s.channels.tail)
    (hkeepl : ∀ s, (channel_free s).listeners = s.listeners)
    (hcancel : ∀ s, (forward_cancel s).listeners = s.listeners.tail)
    (hkeepc : ∀ s, (forward_cancel s).channels = s.channels)
    (hnodup : session.channels.Nodup)
    (hfuelc : session.channels.length ≤ fuel) (hfuell : session.listeners.length ≤ fuel) :
    ∃ final calls,
      libssh2_session_free Kc channel_free forward_cancel fuel session = some (final, calls)
      ∧ final.channels = [] ∧ final.listeners = [] ∧ final.packets = [] := by
  obtain ⟨s1, ds, h1, _, hs1⟩ :=
    session_free_channels_run channel_free hbeh fuel session hnodup hfuelc
  have hl1 : s1.listeners = session.listeners :=
    session_free_channels_keeps_listeners channel_free hkeepl fuel session _ h1
  obtain ⟨s2, t2, h2, hs2l, hs2c⟩ :=
    session_free_listeners_run forward_cancel hcancel hkeepc fuel s1 (by rw [hl1]; exact hfuell)
  have hrun : libssh2_session_free Kc channel_free forward_cancel fuel session
      = some ({ (session_free_newkeys Kc s2).1 with packets := [] },
          spec_channel_trace session.channels ds ++ t2 ++ (session_free_newkeys Kc s2).2
            ++ session_free_strings (session_free_newkeys Kc s2).1
            ++ session_free_packets (session_free_newkeys Kc s2).1.packets
            ++ [.free .session]) := by
    unfold libssh2_session_free
    rw [h1]
    simp only
    rw [h2]
  refine ⟨_, _, hrun, ?_, ?_, rfl⟩
  · show (session_free_newkeys Kc s2).1.channels = []
    unfold session_free_newkeys
    split
    · exact hs2c.trans hs1
    · exact hs2c.trans hs1
  · show (session_free_newkeys Kc s2).1.listeners = []
    unfold session_free_newkeys
    split
    · exact hs2l
    · exact hs2l

end Libssh2
